import Mathlib

/-!
Verification of the ChunScraper retry/feedback control loop and its helper
components (agent.py, executor.py) against the natural-language specification.

The Python code manipulates HTML documents through BeautifulSoup with the
stdlib html.parser builder.  Following the specification's design note
("model as an explicit tree interface: node kind, attributes mapping,
children sequence, text accessor"), documents are embedded as an explicit
tree type `Node`; BeautifulSoup operations used by the code (decompose,
find, select, get_text, str) are given executable models over that tree,
faithful to their behaviour on well-formed markup (tag-soup error recovery
and entity escaping, which the code under verification never depends on,
are not modelled).  Python strings are embedded as Lean `String` with
explicit models of the Python primitives used (strip, lower, slicing,
split, substring containment, regex over the restricted patterns actually
occurring in the code).
-/

namespace ChunScraper

/-! ## Models of the Python string primitives used by agent.py / executor.py -/

/-- Whitespace characters recognised by Python's default str.strip / str.split
(ASCII range; the code only ever strips ASCII whitespace). -/
def isPyWs (c : Char) : Bool :=
  c = ' ' || c = '\t' || c = '\n' || c = '\r' || c = '\x0b' || c = '\x0c'

/-- Model of Python str.strip(): drop leading and trailing whitespace. -/
def pyStrip (s : String) : String :=
  String.mk (((s.data.dropWhile isPyWs).reverse.dropWhile isPyWs).reverse)

/-- Model of Python str.lower() (ASCII case folding, which is all the code needs). -/
def pyLower (s : String) : String :=
  String.mk (s.data.map Char.toLower)

/-- Model of Python slicing s[:n] (first n characters). -/
def pySlice (s : String) (n : Nat) : String :=
  String.mk (s.data.take n)

/-- Check whether the list `needle` occurs at the head of `hay`. -/
def listStartsWith : List Char → List Char → Bool
  | _, [] => true
  | [], _ :: _ => false
  | h :: hs, n :: ns => h = n && listStartsWith hs ns

/-- Check whether `needle` occurs as a contiguous sublist of `hay`. -/
def listContainsSub (hay needle : List Char) : Bool :=
  match hay with
  | [] => needle.isEmpty
  | _ :: t => listStartsWith hay needle || listContainsSub t needle

/-- Model of the Python substring test `needle in hay`. -/
def containsSub (hay needle : String) : Bool :=
  listContainsSub hay.data needle.data

/-- Helper for `pySplitWs`: accumulate the current word (reversed). -/
def splitWsAux : List Char → List Char → List String
  | [], acc => if acc.isEmpty then [] else [String.mk acc.reverse]
  | c :: cs, acc =>
    if isPyWs c then
      if acc.isEmpty then splitWsAux cs [] else String.mk acc.reverse :: splitWsAux cs []
    else splitWsAux cs (c :: acc)

/-- Model of Python str.split() with no argument: split on whitespace runs,
dropping empty pieces. -/
def pySplitWs (s : String) : List String :=
  splitWsAux s.data []

/-- Helper for `pySplitChar`: split on a separator character, keeping empty pieces. -/
def splitCharAux : List Char → Char → List Char → List String
  | [], _, acc => [String.mk acc.reverse]
  | c :: cs, sep, acc =>
    if c = sep then String.mk acc.reverse :: splitCharAux cs sep []
    else splitCharAux cs sep (c :: acc)

/-- Model of Python str.split(sep) for a single-character separator. -/
def pySplitChar (s : String) (sep : Char) : List String :=
  splitCharAux s.data sep []

/-- Convert a run of decimal digit characters to a Nat. -/
def digitsToNat (l : List Char) : Nat :=
  l.foldl (fun n c => 10 * n + (c.toNat - 48)) 0

/-- Helper for `firstNumber`: scan for the first maximal digit run. -/
def firstNumberAux : List Char → Option Nat
  | [] => none
  | c :: cs =>
    if c.isDigit then some (digitsToNat ((c :: cs).takeWhile Char.isDigit))
    else firstNumberAux cs

/-- Model of `re.search(r'(\d+)', s)` followed by int(...): the first maximal
run of decimal digits in `s`, if any. -/
def firstNumber (s : String) : Option Nat :=
  firstNumberAux s.data

/-- Interpose a separator between the strings of a list and concatenate
(Python sep.join(parts)). -/
def joinSep (sep : String) : List String → String
  | [] => ""
  | [s] => s
  | s :: rest => s ++ sep ++ joinSep sep rest

/-! ## The document tree model (spec section 9: explicit tree interface) -/

/-- A node of a parsed HTML document: an element with tag name, attribute
list (in document order, values as raw strings) and children, or a text
node.  The root produced by parsing is an element named "[document]",
mirroring the name BeautifulSoup gives its root object. -/
inductive Node where
  | element (tag : String) (attrs : List (String × String)) (children : List Node)
  | text (s : String)

/-- Tag name of a node ("" for text nodes). -/
def Node.tagName : Node → String
  | .element t _ _ => t
  | .text _ => ""

/-- Attribute list of a node. -/
def Node.attrList : Node → List (String × String)
  | .element _ a _ => a
  | .text _ => []

/-- Children of a node. -/
def Node.childList : Node → List Node
  | .element _ _ cs => cs
  | .text _ => []

/-- Look up an attribute value by name (first occurrence). -/
def lookupAttr : List (String × String) → String → Option String
  | [], _ => none
  | (k, v) :: rest, name => if k = name then some v else lookupAttr rest name

mutual

/-- Structural equality of nodes, modelling bs4's Tag.__eq__ (same name, same
attributes, same contents), which is also the key used by dict.fromkeys
dedup in the code because Tag.__hash__ hashes the markup. -/
def nodeBeq : Node → Node → Bool
  | .text a, .text b => a = b
  | .element t1 a1 c1, .element t2 a2 c2 => t1 = t2 && a1 = a2 && nodeListBeq c1 c2
  | _, _ => false

/-- Structural equality on lists of nodes. -/
def nodeListBeq : List Node → List Node → Bool
  | [], [] => true
  | a :: as_, b :: bs_ => nodeBeq a b && nodeListBeq as_ bs_
  | _, _ => false

end

/-- Void HTML elements, rendered self-closing by bs4 and given no children by
the html.parser tree builder. -/
def voidTags : List String :=
  ["area", "base", "br", "col", "embed", "hr", "img", "input", "link",
   "meta", "param", "source", "track", "wbr"]

/-- Render an attribute list the way bs4 does: space, name, equals, double-quoted value. -/
def attrsString : List (String × String) → String
  | [] => ""
  | (k, v) :: rest => " " ++ k ++ "=\x22" ++ v ++ "\x22" ++ attrsString rest

mutual

/-- Model of Python str(tag) on a bs4 element: serialise the subtree.  The
"[document]" root serialises to just its children, like BeautifulSoup. -/
def render : Node → String
  | .text s => s
  | .element tag attrs children =>
    if tag = "[document]" then renderList children
    else if tag ∈ voidTags && children.isEmpty then
      "<" ++ tag ++ attrsString attrs ++ "/>"
    else
      "<" ++ tag ++ attrsString attrs ++ ">" ++ renderList children ++ "</" ++ tag ++ ">"

/-- Serialise a list of sibling nodes. -/
def renderList : List Node → String
  | [] => ""
  | c :: cs => render c ++ renderList cs

end

mutual

/-- Collect the text-node strings of a subtree in document order. -/
def textNodeStrings : Node → List String
  | .text s => [s]
  | .element _ _ cs => textNodeStringsList cs

/-- Collect text-node strings of a list of sibling subtrees. -/
def textNodeStringsList : List Node → List String
  | [] => []
  | c :: cs => textNodeStrings c ++ textNodeStringsList cs

end

/-- Model of bs4 get_text(" ", strip=True): strip every descendant string,
drop the ones that become empty, and join the rest with a single space. -/
def getTextStripped (n : Node) : String :=
  joinSep " " (((textNodeStrings n).map pyStrip).filter (fun s => !(s == "")))

/-- A located node: the node itself plus its ancestor chain, innermost
ancestor first (the chain ends at the "[document]" root). -/
structure Loc where
  node : Node
  ancestors : List Node

mutual

/-- All element descendants of a node, including the node itself when it is
an element, in document (preorder) order, with ancestor chains. -/
def elementLocs (anc : List Node) : Node → List Loc
  | .text _ => []
  | .element t a cs =>
    ⟨.element t a cs, anc⟩ :: elementLocsList (.element t a cs :: anc) cs

/-- Element descendants of a list of sibling subtrees. -/
def elementLocsList (anc : List Node) : List Node → List Loc
  | [] => []
  | c :: cs => elementLocs anc c ++ elementLocsList anc cs

end

mutual

/-- All text-node descendants of a node in document order, with ancestor chains. -/
def textLocs (anc : List Node) : Node → List Loc
  | .text s => [⟨.text s, anc⟩]
  | .element t a cs => textLocsList (.element t a cs :: anc) cs

/-- Text-node descendants of a list of sibling subtrees. -/
def textLocsList (anc : List Node) : List Node → List Loc
  | [] => []
  | c :: cs => textLocs anc c ++ textLocsList anc cs

end

/-- Descendant element locations of a node (excluding the node itself), as
searched by bs4 find / find_all / select on that node. -/
def descendantLocs (root : Node) : List Loc :=
  elementLocsList [root] root.childList

/-- Model of soup.find(name): first descendant element with the given tag name. -/
def findTagLoc (root : Node) (tag : String) : Option Loc :=
  ((descendantLocs root).filter (fun l => l.node.tagName == tag)).head?

/-! ## CSS selectors (the restricted grammar used by agent.py) -/

/-- The CSS selector forms occurring in agent.py's selector tables: a bare
tag name, an id selector, a class selector, an attribute substring or
equality test, a tag with a required attribute, and a direct-child pair. -/
inductive Sel where
  | tag (t : String)
  | idSel (v : String)
  | clsSel (v : String)
  | attrSub (a v : String)
  | attrEq (a v : String)
  | tagAttr (t a : String)
  | childOf (p c : String)

/-- Split a character list at the first occurrence of a separator sublist. -/
def splitAtSub : List Char → List Char → Option (List Char × List Char)
  | [], _ => none
  | h :: t, sep =>
    if listStartsWith (h :: t) sep then some ([], (h :: t).drop sep.length)
    else match splitAtSub t sep with
      | some (l, r) => some (h :: l, r)
      | none => none

/-- Parse one of the selector strings used in agent.py into `Sel`.
Covers exactly the forms present in the code's selector tables. -/
def parseSel (s : String) : Option Sel :=
  match s.data with
  | '#' :: rest => some (.idSel (String.mk rest))
  | '.' :: rest => some (.clsSel (String.mk rest))
  | '[' :: rest =>
    -- forms [a*="v"] and [a="v"]
    (match splitAtSub rest ['*', '=', '\x22'] with
     | some (a, r) =>
       (match splitAtSub r ['\x22', ']'] with
        | some (v, _) => some (.attrSub (String.mk a) (String.mk v))
        | none => none)
     | none =>
       match splitAtSub rest ['=', '\x22'] with
       | some (a, r) =>
         (match splitAtSub r ['\x22', ']'] with
          | some (v, _) => some (.attrEq (String.mk a) (String.mk v))
          | none => none)
       | none => none)
  | l =>
    match splitAtSub l [' ', '>', ' '] with
    | some (p, c) => some (.childOf (String.mk p) (String.mk c))
    | none =>
      match splitAtSub l ['['] with
      | some (t, r) =>
        (match splitAtSub r [']'] with
         | some (a, _) => some (.tagAttr (String.mk t) (String.mk a))
         | none => none)
      | none => some (.tag (String.mk l))

/-- Does a located element match a parsed selector?  Class selectors test
membership in the whitespace-split class token list; attribute substring
selectors test the raw serialised value, as soupsieve does. -/
def matchesSel (sel : Sel) (l : Loc) : Bool :=
  match sel with
  | .tag t => l.node.tagName == t
  | .idSel v => lookupAttr l.node.attrList "id" == some v
  | .clsSel v =>
    (match lookupAttr l.node.attrList "class" with
     | some cv => (pySplitWs cv).contains v
     | none => false)
  | .attrSub a v =>
    (match lookupAttr l.node.attrList a with
     | some av => containsSub av v
     | none => false)
  | .attrEq a v => lookupAttr l.node.attrList a == some v
  | .tagAttr t a => l.node.tagName == t && (lookupAttr l.node.attrList a).isSome
  | .childOf p c =>
    l.node.tagName == c &&
      (match l.ancestors.head? with
       | some parent => parent.tagName == p
       | none => false)

/-- Model of scope.select(selector, limit=n): the first n descendant elements
of the scope matching the selector, in document order.  An unparseable
selector yields no matches (never happens for the selectors in the code). -/
def selectLimit (scope : Loc) (selector : String) (limit : Nat) : List Loc :=
  match parseSel selector with
  | some sel =>
    ((elementLocsList (scope.node :: scope.ancestors) scope.node.childList).filter
      (matchesSel sel)).take limit
  | none => []

/-- Model of soup.select_one(selector): first matching descendant or None. -/
def selectOne (scope : Loc) (selector : String) : Option Loc :=
  match parseSel selector with
  | some sel =>
    ((elementLocsList (scope.node :: scope.ancestors) scope.node.childList).filter
      (matchesSel sel)).head?
  | none => none

/-! ## Parsing HTML strings (model of BeautifulSoup(s, "html.parser") on
well-formed markup) -/

/-- Lexer tokens for HTML markup. -/
inductive HtmlTok where
  | startTag (tag : String) (attrs : List (String × String)) (selfClosing : Bool)
  | endTag (tag : String)
  | txt (s : String)

/-- Parse the attribute region of a start tag: zero or more name="value"
pairs (the only attribute syntax the modelled code and inputs use). -/
def parseAttrs : Nat → List Char → List (String × String)
  | 0, _ => []
  | fuel + 1, cs =>
    let cs := cs.dropWhile isPyWs
    match cs with
    | [] => []
    | _ =>
      let name := cs.takeWhile (fun c => !(isPyWs c) && c ≠ '=' && c ≠ '/' && c ≠ '>')
      let rest := cs.drop name.length
      if name.isEmpty then []
      else match rest with
        | '=' :: '\x22' :: r2 =>
          let v := r2.takeWhile (fun c => c ≠ '\x22')
          (String.mk (name.map Char.toLower), String.mk v) ::
            parseAttrs fuel (r2.drop (v.length + 1))
        | r2 => (String.mk (name.map Char.toLower), "") :: parseAttrs fuel r2

/-- Tokenise HTML markup.  Fuel is an upper bound on the number of tokens;
each step consumes at least one character, so fuel = length suffices. -/
def tokenizeHtml : Nat → List Char → List HtmlTok
  | 0, _ => []
  | _, [] => []
  | fuel + 1, '<' :: '/' :: rest =>
    let tag := rest.takeWhile (fun c => c ≠ '>')
    .endTag (pyStrip (String.mk (tag.map Char.toLower))) ::
      tokenizeHtml fuel (rest.drop (tag.length + 1))
  | fuel + 1, '<' :: rest =>
    let inner := rest.takeWhile (fun c => c ≠ '>')
    let after := rest.drop (inner.length + 1)
    let selfClosing := inner.getLast? = some '/'
    let inner2 := if selfClosing then inner.dropLast else inner
    let tag := inner2.takeWhile (fun c => !(isPyWs c) && c ≠ '/')
    let attrs := parseAttrs inner2.length (inner2.drop tag.length)
    .startTag (String.mk (tag.map Char.toLower)) attrs selfClosing ::
      tokenizeHtml fuel after
  | fuel + 1, c :: rest =>
    let t := rest.takeWhile (fun ch => ch ≠ '<')
    .txt (String.mk (c :: t)) :: tokenizeHtml fuel (rest.drop t.length)

/-- A frame of the tree-builder stack: an open element together with the
(reversed) children accumulated in its parent before it was opened. -/
structure OpenFrame where
  tag : String
  attrs : List (String × String)
  parentAcc : List Node

/-- Close every still-open frame at end of input (html.parser closes
remaining open elements when the document ends). -/
def closeAll : List OpenFrame → List Node → List Node
  | [], acc => acc.reverse
  | f :: stack, acc => closeAll stack (.element f.tag f.attrs acc.reverse :: f.parentAcc)

/-- Build the top-level node list from a token stream, maintaining a stack
of open elements.  Void elements become leaves immediately; a close tag
matching the innermost open element pops it, other close tags are ignored. -/
def buildNodes : List HtmlTok → List OpenFrame → List Node → List Node
  | [], stack, acc => closeAll stack acc
  | .txt s :: toks, stack, acc => buildNodes toks stack (.text s :: acc)
  | .startTag t a sc :: toks, stack, acc =>
    if sc || t ∈ voidTags then buildNodes toks stack (.element t a [] :: acc)
    else buildNodes toks (⟨t, a, acc⟩ :: stack) []
  | .endTag t :: toks, stack, acc =>
    match stack with
    | f :: stackRest =>
      if f.tag = t then
        buildNodes toks stackRest (.element f.tag f.attrs acc.reverse :: f.parentAcc)
      else buildNodes toks stack acc
    | [] => buildNodes toks stack acc

/-- Model of BeautifulSoup(s, "html.parser") on well-formed markup: a
"[document]" root over the parsed top-level nodes (html.parser adds no
implicit html/body wrappers). -/
def parseHtml (s : String) : Node :=
  .element "[document]" [] (buildNodes (tokenizeHtml s.data.length s.data) [] [])

/-- The root of a document as a located node. -/
def rootLoc (root : Node) : Loc := ⟨root, []⟩

/-- Scoped variant of find: first descendant of a located element with the
given tag name. -/
def findTagIn (scope : Loc) (tag : String) : Option Loc :=
  ((elementLocsList (scope.node :: scope.ancestors) scope.node.childList).filter
    (fun l => l.node.tagName == tag)).head?

/-! ## agent.py: create_html_structure_map -/

mutual

/-- Model of the recursive build_tree helper of create_html_structure_map:
tag name plus id and up to three class tokens, one line per element,
depth capped at 7 and breadth capped at 11 children per node. -/
def buildTree : Node → String → Nat → String
  | .text _, _, _ => ""
  | .element tag attrs cs, indent, depth =>
    let tag_info := tag
      ++ (match lookupAttr attrs "id" with | some v => "#" ++ v | none => "")
      ++ (match lookupAttr attrs "class" with
          | some v => "." ++ joinSep "." ((pySplitWs v).take 3)
          | none => "")
    let tree_str := indent ++ "<" ++ tag_info ++ ">\n"
    if 7 < depth then tree_str ++ indent ++ "  [...max depth reached...]\n"
    else tree_str ++ buildTreeChildren cs indent depth 0

/-- Iterate over the direct child elements of a node, stopping with a
marker once more than 10 have been emitted. -/
def buildTreeChildren : List Node → String → Nat → Nat → String
  | [], _, _, _ => ""
  | .text _ :: rest, indent, depth, count => buildTreeChildren rest indent depth count
  | .element t a cs :: rest, indent, depth, count =>
    if 10 < count then indent ++ "  [...and more...]\n"
    else buildTree (.element t a cs) (indent ++ "  ") (depth + 1)
      ++ buildTreeChildren rest indent depth (count + 1)

end

/-- Model of create_html_structure_map (agent.py): a depth- and
breadth-bounded outline of the body's tag structure.  The Python function
takes the raw HTML string and parses it with BeautifulSoup; the outer
exception fallback is unreachable in the model because every operation is
total. -/
def create_html_structure_map (html_content : String) : String :=
  match findTagLoc (parseHtml html_content) "body" with
  | none => "<body> tag not found."
  | some b => buildTree b.node "" 0

/-! ## agent.py: _expand_html_context -/

/-- Match a list of split() words, in order, separated by arbitrary (possibly
empty) whitespace, starting exactly at the given position.  This is the
regex built by _expand_html_context: escaped words joined by a whitespace
pattern; greedy whitespace skipping is exact because split() words never
start with whitespace. -/
def matchWordsAt : List String → List Char → Bool
  | [], _ => true
  | w :: ws, cs =>
    listStartsWith cs w.data &&
      matchWordsAt ws ((cs.drop w.data.length).dropWhile isPyWs)

/-- Model of regex.search for the word pattern: does it match at any position? -/
def searchWords (ws : List String) : List Char → Bool
  | [] => matchWordsAt ws []
  | c :: cs => matchWordsAt ws (c :: cs) || searchWords ws cs

/-- All text-node locations of a document in document order (what
find_all(text=regex) iterates over). -/
def docTextLocs (root : Node) : List Loc :=
  textLocsList [root] root.childList

/-- The str(body)-or-whole-input fallback used throughout
_expand_html_context: the serialised body if the document has one, else the
original input string unchanged. -/
def bodyOr (soup : Node) (orig : String) : String :=
  match findTagLoc soup "body" with
  | some b => render b.node
  | none => orig

/-- First element of the snippet that is not an html/body wrapper (the
anchor element used by _expand_html_context). -/
def firstSignificantLoc (snippet_soup : Node) : Option Loc :=
  ((descendantLocs snippet_soup).filter
    (fun l => !(l.node.tagName == "html") && !(l.node.tagName == "body"))).head?

/-- First text node of the full document matching the word pattern. -/
def firstTextMatchLoc (full_soup : Node) (pat : List String) : Option Loc :=
  ((docTextLocs full_soup).filter (fun l =>
    match l.node with
    | .text s => searchWords pat s.data
    | .element _ _ _ => false)).head?

/-- Model of _expand_html_context (agent.py): anchor on the first significant
element of the previous snippet, locate its text in the full document, and
return the serialisation of the matched text's grandparent element; fall
back to the full document's body (or the raw input when it has no body)
when no anchor, no anchor text, or no match is found.  The Python
except-branch (return the original document unchanged) is unreachable in
the model because every operation is total. -/
def _expand_html_context (full_html last_snippet : String) : String :=
  let full_soup := parseHtml full_html
  let snippet_soup := parseHtml last_snippet
  match firstSignificantLoc snippet_soup with
  | none => bodyOr full_soup full_html
  | some first_el =>
    let text_content := getTextStripped first_el.node
    if text_content == "" then bodyOr full_soup full_html
    else
      let pat := (pySplitWs text_content).take 15
      match firstTextMatchLoc full_soup pat with
      | none => bodyOr full_soup full_html
      | some tloc =>
        match tloc.ancestors with
        | _target :: parent :: _ =>
          if !(parent.tagName == "body") && !(parent.tagName == "html") then render parent
          else bodyOr full_soup full_html
        | _ => bodyOr full_soup full_html

/-! ## agent.py: extract_relevant_html -/

/-- Tags stripped from the document before relevance extraction
(soup(["script", ...]) followed by decompose()). -/
def noiseTags : List String :=
  ["script", "style", "header", "footer", "nav", "aside"]

mutual

/-- Remove every element whose tag is in the bad list, recursively, keeping
everything else (model of decompose of all matching elements). -/
def stripNodes (bad : List String) : Node → List Node
  | .text s => [.text s]
  | .element t a cs =>
    if bad.contains t then [] else [.element t a (stripNodesList bad cs)]

/-- Remove bad elements from a list of sibling subtrees. -/
def stripNodesList (bad : List String) : List Node → List Node
  | [] => []
  | c :: cs => stripNodes bad c ++ stripNodesList bad cs

end

/-- The document after decomposing script/style/header/footer/nav/aside. -/
def decomposeNoise : Node → Node
  | .text s => .text s
  | .element t a cs => .element t a (stripNodesList noiseTags cs)

/-- The ordered main-content selectors of extract_relevant_html; the first
one that matches wins. -/
def mainSelectors : List String :=
  ["main", "[role=\x22main\x22]", "article", "#content", "#main", ".content", ".main"]

/-- Try selectors in order against the whole document; first match wins. -/
def firstSelMatch : List String → Node → Option Loc
  | [], _ => none
  | sel :: rest, soup =>
    match selectOne (rootLoc soup) sel with
    | some l => some l
    | none => firstSelMatch rest soup

/-- The keyword-to-selector table of extract_relevant_html, in the source's
dict insertion order. -/
def structuralKeywords : List (String × List String) :=
  [("card", ["[class*=\x22card\x22]"]), ("container", ["[class*=\x22container\x22]"]),
   ("wrapper", ["[class*=\x22wrapper\x22]"]),
   ("section", ["section"]), ("block", ["[class*=\x22block\x22]"]),
   ("grid", ["[class*=\x22grid\x22]"]),
   ("list", ["ul", "ol"]), ("item", ["li", "[class*=\x22item\x22]"]),
   ("row", ["tr", "[class*=\x22row\x22]"]), ("column", ["td", "th", "[class*=\x22col\x22]"]),
   ("table", ["table"]),
   ("article", ["article"]), ("post", ["[class*=\x22post\x22]"]),
   ("comment", ["[class*=\x22comment\x22]"]),
   ("review", ["[class*=\x22review\x22]", "[itemtype*=\x22Review\x22]"]),
   ("title", ["[class*=\x22title\x22]", ".title"]),
   ("header", ["h1", "h2", "h3", "[class*=\x22header\x22]"]), ("headline", ["h1", "h2", "h3"]),
   ("description", ["[class*=\x22description\x22]", "[class*=\x22desc\x22]"]),
   ("summary", ["[class*=\x22summary\x22]"]),
   ("author", ["[class*=\x22author\x22]", "[rel=\x22author\x22]"]),
   ("user", ["[class*=\x22user\x22]", "[class*=\x22profile\x22]"]),
   ("name", ["[class*=\x22name\x22]"]),
   ("date", ["[class*=\x22date\x22]", "[class*=\x22time\x22]", "time"]), ("timestamp", ["time"]),
   ("product", ["[class*=\x22product\x22]", "[itemtype*=\x22Product\x22]"]),
   ("price", ["[class*=\x22price\x22]"]), ("rating", ["[class*=\x22rating\x22]"]),
   ("image", ["img"]), ("picture", ["picture"]), ("photo", ["img", "figure"]),
   ("gallery", ["[class*=\x22gallery\x22]"]),
   ("link", ["a"]), ("url", ["a[href]"]), ("href", ["a[href]"]),
   ("text", ["p", "div > p"]), ("content", ["p"])]

/-- Add elements to a duplicate-free list, preserving first-insertion order
(the contents of the Python set active_selectors). -/
def setUpdate (acc : List String) : List String → List String
  | [] => acc
  | s :: rest => setUpdate (if acc.contains s then acc else acc ++ [s]) rest

/-- The set of selectors activated by the prompt's word set (contents of the
Python set; its iteration order is supplied separately, see
extractWithOrder). -/
def activeSelectorsFor (prompt_words : List String) : List String :=
  structuralKeywords.foldl
    (fun acc kv => if prompt_words.contains kv.1 then setUpdate acc kv.2 else acc) []

/-- Deduplicate located elements keyed by bs4 Tag equality (same markup),
keeping the first occurrence: model of list(dict.fromkeys(...)) on Tags,
whose hash and equality are markup-based. -/
def dedupLocsAux : List Loc → List Node → List Loc
  | [], _ => []
  | l :: rest, seen =>
    if seen.any (nodeBeq l.node) then dedupLocsAux rest seen
    else l :: dedupLocsAux rest (l.node :: seen)

/-- Deduplicate a list of located elements by markup equality. -/
def dedupLocs (ls : List Loc) : List Loc := dedupLocsAux ls []

/-- Deduplicate a list of nodes by markup equality, keeping first occurrences. -/
def dedupNodesAux : List Node → List Node → List Node
  | [], _ => []
  | n :: rest, seen =>
    if seen.any (nodeBeq n) then dedupNodesAux rest seen
    else n :: dedupNodesAux rest (n :: seen)

/-- Deduplicate nodes by markup equality (list(dict.fromkeys(...))). -/
def dedupNodes (ns : List Node) : List Node := dedupNodesAux ns []

/-- For each matched element pick its grandparent (else parent) as context,
unless that ancestor is the body or html wrapper. -/
def contextualOf : List Loc → List Node
  | [] => []
  | l :: rest =>
    let parent := l.ancestors.head?
    let grandparent := l.ancestors.get? 1
    (match grandparent with
     | some g =>
       if !(g.tagName == "body") && !(g.tagName == "html") then [g]
       else
         (match parent with
          | some p => if !(p.tagName == "body") && !(p.tagName == "html") then [p] else []
          | none => [])
     | none =>
       match parent with
       | some p => if !(p.tagName == "body") && !(p.tagName == "html") then [p] else []
       | none => []) ++ contextualOf rest

/-- Model of bs4's .string property: a text node yields its string; an
element with exactly one child yields that child's .string; anything else
yields None. -/
def nodeString : Node → Option String
  | .text s => some s
  | .element _ _ [c] => nodeString c
  | .element _ _ _ => none

/-- Title and meta-description parts prepended to the output (stage 3 of
extract_relevant_html). -/
def headParts (soup : Node) : List String :=
  match findTagLoc soup "head" with
  | none => []
  | some h =>
    (match findTagIn h "title" with
     | some t =>
       (match nodeString t.node with
        | some s => if !(s == "") then [render t.node] else []
        | none => [])
     | none => []) ++
    (match ((elementLocsList (h.node :: h.ancestors) h.node.childList).filter
        (fun l => l.node.tagName == "meta" &&
          lookupAttr l.node.attrList "name" == some "description")).head? with
     | some m =>
       (match lookupAttr m.node.attrList "content" with
        | some c => if !(c == "") then [render m.node] else []
        | none => [])
     | none => [])

/-- Stages 1-3 of extract_relevant_html: the output parts assembled before
the start-of-body fallback (title/meta parts, then either the main content
area or the deduplicated contextual blocks).  The parameter ord supplies
the iteration order of the Python set active_selectors, which Python does
not fix across processes (string hash randomisation); it is applied to the
insertion-ordered list of the set's contents. -/
def reducerBaseParts (ord : List String → List String) (soup0 : Node)
    (user_prompt : String) : List String :=
  let prompt := pyLower user_prompt
  let soup := decomposeNoise soup0
  let main_content := firstSelMatch mainSelectors soup
  let search_scope : Loc :=
    match main_content with
    | some l => l
    | none =>
      match findTagLoc soup "body" with
      | some b => b
      | none => rootLoc soup
  let prompt_words := pySplitWs prompt
  let active_selectors := activeSelectorsFor prompt_words
  let relevant_elements := (ord active_selectors).foldl
    (fun acc sel => acc ++ selectLimit search_scope sel 20) []
  let contextualParts :=
    ((dedupNodes (contextualOf (dedupLocs relevant_elements))).take 30).map render
  match main_content with
  | some mc =>
    if relevant_elements.isEmpty then headParts soup ++ [render mc.node]
    else headParts soup ++ contextualParts
  | none => headParts soup ++ contextualParts

/-- The output parts of extract_relevant_html including the fallback: when at
most two parts were assembled, the first 15,000 characters of the body are
appended. -/
def reducerParts (ord : List String → List String) (soup0 : Node)
    (user_prompt : String) : List String :=
  let output_parts := reducerBaseParts ord soup0 user_prompt
  if output_parts.length ≤ 2 then
    match findTagLoc (decomposeNoise soup0) "body" with
    | some b => output_parts ++ [pySlice (render b.node) 15000]
    | none => output_parts
  else output_parts

/-- The final clipping step of extract_relevant_html: hard-truncate to
75,000 characters, appending the truncation marker when cut. -/
def finalClip (combined_content : String) : String :=
  if 75000 < combined_content.length then
    pySlice combined_content 75000 ++ "\n\n... (HTML truncated)"
  else combined_content

/-- Model of extract_relevant_html (agent.py), over the parsed document tree
(the Python function parses its raw-string argument first; spec section 9
models documents as explicit trees): assemble the parts, join them with
blank lines, and clip. -/
def extractWithOrder (ord : List String → List String) (soup0 : Node)
    (user_prompt : String) : String :=
  finalClip (joinSep "\n\n" (reducerParts ord soup0 user_prompt))

/-- Model of extract_relevant_html with the set-iteration order fixed to the
insertion order (one concrete run of the Python function). -/
def extract_relevant_html (soup : Node) (user_prompt : String) : String :=
  extractWithOrder (fun l => l) soup user_prompt

/-! ## JSON values and a model of json.loads (used by validate_scraper_results) -/

/-- Parsed JSON values.  Numbers keep their lexeme (only the structural shape
and, for the image heuristic, a textual rendering are ever consumed). -/
inductive Json where
  | null
  | bool (b : Bool)
  | num (raw : String)
  | str (s : String)
  | arr (items : List Json)
  | obj (fields : List (String × Json))

/-- Whitespace accepted between JSON tokens. -/
def jsonWs (c : Char) : Bool :=
  c = ' ' || c = '\t' || c = '\n' || c = '\r'

/-- Value of a hexadecimal digit, if any. -/
def hexVal (c : Char) : Option Nat :=
  if '0' ≤ c && c ≤ '9' then some (c.toNat - 48)
  else if 'a' ≤ c && c ≤ 'f' then some (c.toNat - 87)
  else if 'A' ≤ c && c ≤ 'F' then some (c.toNat - 55)
  else none

/-- Parse the remainder of a JSON string literal (after the opening quote). -/
def parseJsonString : Nat → List Char → Option (String × List Char)
  | 0, _ => none
  | fuel + 1, cs =>
    match cs with
    | [] => none
    | '\x22' :: rest => some ("", rest)
    | '\\' :: e :: rest =>
      (match e with
       | '\x22' => (parseJsonString fuel rest).map (fun p => (String.mk ('\x22' :: p.1.data), p.2))
       | '\\' => (parseJsonString fuel rest).map (fun p => (String.mk ('\\' :: p.1.data), p.2))
       | '/' => (parseJsonString fuel rest).map (fun p => (String.mk ('/' :: p.1.data), p.2))
       | 'b' => (parseJsonString fuel rest).map (fun p => (String.mk ('\x08' :: p.1.data), p.2))
       | 'f' => (parseJsonString fuel rest).map (fun p => (String.mk ('\x0c' :: p.1.data), p.2))
       | 'n' => (parseJsonString fuel rest).map (fun p => (String.mk ('\n' :: p.1.data), p.2))
       | 'r' => (parseJsonString fuel rest).map (fun p => (String.mk ('\r' :: p.1.data), p.2))
       | 't' => (parseJsonString fuel rest).map (fun p => (String.mk ('\t' :: p.1.data), p.2))
       | 'u' =>
         (match rest with
          | h1 :: h2 :: h3 :: h4 :: r2 =>
            (match hexVal h1, hexVal h2, hexVal h3, hexVal h4 with
             | some a, some b, some c, some d =>
               let n := ((a * 16 + b) * 16 + c) * 16 + d
               (parseJsonString fuel r2).map
                 (fun p => (String.mk (Char.ofNat n :: p.1.data), p.2))
             | _, _, _, _ => none)
          | _ => none)
       | _ => none)
    | c :: rest =>
      if c.toNat < 32 then none
      else (parseJsonString fuel rest).map (fun p => (String.mk (c :: p.1.data), p.2))

/-- Parse the optional fraction part of a JSON number. -/
def parseJsonFrac : List Char → Option (List Char × List Char)
  | '.' :: r =>
    let ds := r.takeWhile Char.isDigit
    if ds.isEmpty then none else some ('.' :: ds, r.drop ds.length)
  | cs => some ([], cs)

/-- Parse the optional exponent part of a JSON number. -/
def parseJsonExp : List Char → Option (List Char × List Char)
  | [] => some ([], [])
  | e :: r =>
    if e = 'e' || e = 'E' then
      let sr := match r with
        | '+' :: t => (['+'], t)
        | '-' :: t => (['-'], t)
        | _ => (([] : List Char), r)
      let ds := sr.2.takeWhile Char.isDigit
      if ds.isEmpty then none else some (e :: sr.1 ++ ds, sr.2.drop ds.length)
    else some ([], e :: r)

/-- Parse a JSON number lexeme (strict grammar, as json.loads enforces). -/
def parseJsonNumber (cs : List Char) : Option (String × List Char) :=
  let sign : List Char × List Char := match cs with
    | '-' :: r => (['-'], r)
    | _ => ([], cs)
  let intPart := sign.2.takeWhile Char.isDigit
  match intPart with
  | [] => none
  | d :: moreDigits =>
    if d = '0' && !moreDigits.isEmpty then none
    else
      match parseJsonFrac (sign.2.drop intPart.length) with
      | none => none
      | some (frac, cs2) =>
        match parseJsonExp cs2 with
        | none => none
        | some (ex, cs3) => some (String.mk (sign.1 ++ intPart ++ frac ++ ex), cs3)

mutual

/-- Parse one JSON value; fuel bounds the recursion depth and is at least the
remaining input length plus one at every call site. -/
def parseJsonValue : Nat → List Char → Option (Json × List Char)
  | 0, _ => none
  | fuel + 1, cs0 =>
    let cs := cs0.dropWhile jsonWs
    if listStartsWith cs "null".data then some (.null, cs.drop 4)
    else if listStartsWith cs "true".data then some (.bool true, cs.drop 4)
    else if listStartsWith cs "false".data then some (.bool false, cs.drop 5)
    else if listStartsWith cs "NaN".data then some (.num "nan", cs.drop 3)
    else if listStartsWith cs "Infinity".data then some (.num "inf", cs.drop 8)
    else if listStartsWith cs "-Infinity".data then some (.num "-inf", cs.drop 9)
    else
      match cs with
      | [] => none
      | c :: r =>
        if c = '\x22' then (parseJsonString (r.length + 1) r).map (fun p => (.str p.1, p.2))
        else if c = '[' then
          (match r.dropWhile jsonWs with
           | ']' :: r2 => some (.arr [], r2)
           | _ => (parseJsonArrayItems fuel r).map (fun p => (.arr p.1, p.2)))
        else if c = '\x7b' then
          (match r.dropWhile jsonWs with
           | '\x7d' :: r2 => some (.obj [], r2)
           | _ => (parseJsonObjItems fuel r).map (fun p => (.obj p.1, p.2)))
        else if c.isDigit || c = '-' then
          (parseJsonNumber (c :: r)).map (fun p => (.num p.1, p.2))
        else none

/-- Parse the comma-separated items of a non-empty JSON array. -/
def parseJsonArrayItems : Nat → List Char → Option (List Json × List Char)
  | 0, _ => none
  | fuel + 1, cs =>
    match parseJsonValue fuel cs with
    | none => none
    | some (v, rest) =>
      match rest.dropWhile jsonWs with
      | [] => none
      | c :: r2 =>
        if c = ',' then (parseJsonArrayItems fuel r2).map (fun p => (v :: p.1, p.2))
        else if c = ']' then some ([v], r2)
        else none

/-- Parse the comma-separated members of a non-empty JSON object. -/
def parseJsonObjItems : Nat → List Char → Option (List (String × Json) × List Char)
  | 0, _ => none
  | fuel + 1, cs =>
    match cs.dropWhile jsonWs with
    | [] => none
    | c0 :: r =>
      if c0 = '\x22' then
        match parseJsonString (r.length + 1) r with
        | none => none
        | some (k, r2) =>
          match r2.dropWhile jsonWs with
          | [] => none
          | c1 :: r3 =>
            if c1 = ':' then
              match parseJsonValue fuel r3 with
              | none => none
              | some (v, r4) =>
                match r4.dropWhile jsonWs with
                | [] => none
                | c2 :: r5 =>
                  if c2 = ',' then
                    (parseJsonObjItems fuel r5).map (fun p => ((k, v) :: p.1, p.2))
                  else if c2 = '\x7d' then some ([(k, v)], r5)
                  else none
            else none
      else none

end

/-- Model of json.loads: parse one value and require only whitespace after it. -/
def jsonLoads (s : String) : Option Json :=
  match parseJsonValue (s.data.length + 1) s.data with
  | some (v, rest) => if (rest.dropWhile jsonWs).isEmpty then some v else none
  | none => none

mutual

/-- Model of Python repr of a json.loads result (str() goes through repr for
containers).  Strings use single quotes; float formatting is approximated
by the lexeme, which the code only feeds to substring tests. -/
def pyRepr : Json → String
  | .null => "None"
  | .bool true => "True"
  | .bool false => "False"
  | .num raw => raw
  | .str s => "'" ++ s ++ "'"
  | .arr items => "[" ++ joinSep ", " (pyReprList items) ++ "]"
  | .obj fields => "\x7b" ++ joinSep ", " (pyReprFields fields) ++ "\x7d"

/-- Representations of the items of a list. -/
def pyReprList : List Json → List String
  | [] => []
  | j :: js => pyRepr j :: pyReprList js

/-- Representations of the members of a dict. -/
def pyReprFields : List (String × Json) → List String
  | [] => []
  | (k, v) :: fs => ("'" ++ k ++ "': " ++ pyRepr v) :: pyReprFields fs

end

/-- Model of Python str() on a json.loads result: bare text for strings,
repr otherwise. -/
def pyStrJson : Json → String
  | .str s => s
  | j => pyRepr j

/-! ## agent.py: validate_scraper_results -/

/-- A validation verdict: {valid, feedback}. -/
structure Verdict where
  valid : Bool
  feedback : String
deriving DecidableEq

/-- The keywords that trigger the image-URL heuristic. -/
def imageKeywords : List String := ["image", "picture", "photo", "img"]

/-- The generic rejection verdict at the end of validate_scraper_results. -/
def genericVerdict : Verdict :=
  ⟨false, "The scraper output doesn't appear to contain structured data"⟩

/-- Model of validate_scraper_results (agent.py): classify the scraper's
stdout against the user objective.  The requested-count comparison
item_count < requested_count * 0.5 is modelled exactly as
2 * item_count < requested_count (halving an integer float is exact).
The outer exception fallback is unreachable in the model. -/
def validate_scraper_results (stdout user_prompt : String) : Verdict :=
  if pyStrip stdout == "" then
    ⟨false, "The scraper produced no output. This usually means no data was found or there was an error."⟩
  else
    match jsonLoads stdout with
    | some (.arr data) =>
      let item_count := data.length
      if item_count == 0 then
        ⟨false, "The scraper returned an empty list. This could mean the CSS selectors are wrong or the data is loaded dynamically. Please try again."⟩
      else
        let afterCount : Option Verdict :=
          match firstNumber user_prompt with
          | some requested_count =>
            if item_count == 0 then
              some ⟨false, "No items were found. Expected " ++ toString requested_count ++
                " items. The website structure might have changed or the selectors need adjustment."⟩
            else if 2 * item_count < requested_count then
              some ⟨false, "Only found " ++ toString item_count ++ " items, but " ++
                toString requested_count ++ " were requested. The scraper may need better selectors."⟩
            else none
          | none => none
        (match afterCount with
         | some v => v
         | none =>
           if imageKeywords.any (fun k => containsSub (pyLower user_prompt) k) then
             if 0 < item_count then
               let has_urls := (data.take 3).any (fun item =>
                 containsSub (pyLower (pyStrJson item)) "url" || containsSub (pyStrJson item) "http")
               if !has_urls then
                 ⟨false, "Found data but no URLs detected. For image scraping, expected to find image URLs."⟩
               else ⟨true, "Successfully extracted " ++ toString item_count ++ " items"⟩
             else ⟨true, "Successfully extracted " ++ toString item_count ++ " items"⟩
           else ⟨true, "Successfully extracted " ++ toString item_count ++ " items"⟩)
    | some (.obj fields) =>
      if fields.isEmpty then
        ⟨false, "The scraper returned an empty JSON object. The selectors might be incorrect."⟩
      else ⟨true, "Successfully extracted structured data"⟩
    | some _ => genericVerdict
    | none =>
      let lines := pySplitChar (pyStrip stdout) '\n'
      if 0 < lines.length && lines.any (fun ln => !(pyStrip ln == "")) then
        ⟨true, "Successfully extracted " ++ toString lines.length ++ " lines of data"⟩
      else genericVerdict

/-! ## executor.py: run_script_in_dir -/

/-- Outcome of one subprocess.run call: it either completed (with captured
streams and return code) or hit its timeout (raising TimeoutExpired). -/
inductive ProcOutcome where
  | completed (stdout stderr : String) (returncode : Int)
  | timedOut

/-- The observable behaviour of the two subprocesses one run_script_in_dir
call launches: pip install -r requirements.txt, then python scraper.py. -/
structure ExecWorld where
  pip : ProcOutcome
  script : ProcOutcome

/-- The execution-sandbox result record {stdout, stderr, exit_code}. -/
structure ExecResult where
  stdout : String
  stderr : String
  exit_code : Int
deriving DecidableEq

/-- Model of run_script_in_dir (executor.py): install dependencies, then run
the script.  A pip failure raises and is caught by the generic handler
(distinct "Failed to install dependencies" stderr, exit code 1); a timeout
of either subprocess is caught by the TimeoutExpired handler (fixed
diagnostic message, exit code 1); a completed script run is returned
as-is, whatever its exit code.  The function is total: it never raises. -/
def run_script_in_dir (w : ExecWorld) : ExecResult :=
  match w.pip with
  | .timedOut => ⟨"", "Script execution timed out after 60 seconds", 1⟩
  | .completed pipOut pipErr pipCode =>
    if pipCode ≠ 0 then
      ⟨"", "Failed to install dependencies: " ++ pyStrip (pipErr ++ "\n" ++ pipOut), 1⟩
    else
      match w.script with
      | .timedOut => ⟨"", "Script execution timed out after 60 seconds", 1⟩
      | .completed sOut sErr sCode => ⟨sOut, sErr, sCode⟩

/-! ## agent.py: run_scraping_job (the control loop) -/

/-- The generated artifact: {scraper_py, requirements_txt}. -/
structure GenResult where
  scraper_py : String
  requirements_txt : String
deriving DecidableEq

/-- One recorded failed attempt, exactly the dict appended to history. -/
structure HistoryEntry where
  reason : String
  code : String
  stdout : String
  stderr : String
  html_snippet : String
deriving DecidableEq

/-- The observable inputs of one generate_script call made by the loop:
the failure history so far, the excerpt, and the structure map (None on
retries).  Recorded, in order, for every attempt the loop makes. -/
structure OracleCall where
  history : List HistoryEntry
  relevant_html : String
  structure_map : Option String
deriving DecidableEq

/-- The terminal result dict of run_scraping_job, with the fields the
various return sites populate. -/
structure JobResult where
  status : String
  message : String
  data_preview : Option String
  download_url : Option String
  final_error : Option String
deriving DecidableEq

/-- The environment of one job: the objective, the fetched document, and the
behaviour of the two external collaborators.  generate_script may raise
(modelled as Except.error carrying str(e)); run_script_in_dir never raises
(see its model above) and is given here as the result record each attempt
observes, as a function of the attempt index and the written artifact. -/
structure JobEnv where
  user_prompt : String
  run_id : String
  html_content : String
  gen : Nat → String → List HistoryEntry → Option String → Except String GenResult
  exec : Nat → GenResult → ExecResult

/-- Model of Python _truncate_preview. -/
def _truncate_preview (data : String) (max_length : Nat) : String :=
  if data.length ≤ max_length then data else pySlice data max_length ++ "..."

/-- The attempt bound of the loop. -/
def max_attempts : Nat := 5

/-- The terminal Failed result built after the loop: carries the last
recorded history entry's reason and stderr. -/
def finalFailureResult (history : List HistoryEntry) : JobResult :=
  let details : String × String :=
    match history.getLast? with
    | some d => (d.reason, d.stderr)
    | none => ("Unknown failure", "No details available.")
  { status := "error"
    message := "The agent failed to generate a working scraper. Please check the website or try a more specific prompt."
    data_preview := none
    download_url := none
    final_error := some ("Final attempt failed: " ++ details.1 ++ "\n\nSTDERR:\n" ++ details.2) }

/-- The terminal Succeeded result. -/
def successResult (env : JobEnv) (stdout : String) : JobResult :=
  { status := "success"
    message := "Scraper generated and tested successfully!"
    data_preview := some (_truncate_preview stdout 500)
    download_url := some ("/api/download/" ++ env.run_id)
    final_error := none }

/-- The terminal ActionRequired result (the artifact is zipped for download
before returning; packaging is a filesystem effect outside the model, its
success recorded by the download_url field). -/
def actionRequiredResult (env : JobEnv) : JobResult :=
  { status := "action_required"
    message := "The script requires Playwright. Please run 'playwright install' and then run the script from the downloaded zip."
    data_preview := none
    download_url := some ("/api/download/" ++ env.run_id)
    final_error := none }

/-- The excerpt an iteration of the loop uses: on a retry with non-empty
history, the expansion of the last recorded attempt's excerpt; otherwise
the excerpt carried over (the initial relevance-reduced one on attempt 0). -/
def loopExcerpt (env : JobEnv) (attempt : Nat) (history : List HistoryEntry)
    (prev_html : String) : String :=
  if 0 < attempt && !history.isEmpty then
    _expand_html_context env.html_content
      ((history.getLast?.map HistoryEntry.html_snippet).getD "")
  else prev_html

/-- The structure map an iteration passes to the oracle: only on the first
attempt (None on retries). -/
def loopSmap (attempt : Nat) (history : List HistoryEntry) (smap : String) :
    Option String :=
  if 0 < attempt && !history.isEmpty then none else some smap

/-- Model of the attempt loop of run_scraping_job.  Arguments mirror the
Python state: remaining iterations (fuel = max_attempts - attempt),
current attempt index, accumulated history, the last generated code (the
Python locals() lookup in the exception handler), the structure map
computed once per job, and the current relevant_html.  Returns the
terminal result, the list of oracle calls made (in order), and the final
history.  Breaking out of the Python for-loop on the last attempt and
exhausting the loop both land at the same failure return, which is what
the fuel-zero case produces. -/
def attemptLoop (env : JobEnv) :
    Nat → Nat → List HistoryEntry → Option String → String → String →
    JobResult × List OracleCall × List HistoryEntry
  | 0, _, history, _, _, _ => (finalFailureResult history, [], history)
  | fuel + 1, attempt, history, lastCode, smap, prev_html =>
    let relevant_html := loopExcerpt env attempt history prev_html
    let structure_map_for_request : Option String := loopSmap attempt history smap
    let call : OracleCall := ⟨history, relevant_html, structure_map_for_request⟩
    match env.gen attempt relevant_html history structure_map_for_request with
    | .error e =>
      let entry : HistoryEntry :=
        { reason := "An unexpected error occurred during script generation or execution: " ++ e
          code := lastCode.getD "Code not generated"
          stdout := ""
          stderr := e
          html_snippet := relevant_html }
      let rest := attemptLoop env fuel (attempt + 1) (history ++ [entry]) lastCode smap relevant_html
      (rest.1, call :: rest.2.1, rest.2.2)
    | .ok result =>
      let current_code := result.scraper_py
      let er := env.exec attempt result
      if er.exit_code == 0 && !(pyStrip er.stdout == "") then
        let validation := validate_scraper_results er.stdout env.user_prompt
        if validation.valid then
          (successResult env er.stdout, [call], history)
        else
          let entry : HistoryEntry :=
            { reason := validation.feedback
              code := current_code
              stdout := _truncate_preview er.stdout 2000
              stderr := _truncate_preview er.stderr 2000
              html_snippet := relevant_html }
          let rest := attemptLoop env fuel (attempt + 1) (history ++ [entry])
            (some current_code) smap relevant_html
          (rest.1, call :: rest.2.1, rest.2.2)
      else if containsSub (pyLower er.stderr) "playwright install" then
        (actionRequiredResult env, [call], history)
      else
        let entry : HistoryEntry :=
          { reason := "Script execution failed with exit code " ++ toString er.exit_code ++
              ". See STDERR for details."
            code := current_code
            stdout := _truncate_preview er.stdout 2000
            stderr := _truncate_preview er.stderr 2000
            html_snippet := relevant_html }
        let rest := attemptLoop env fuel (attempt + 1) (history ++ [entry])
          (some current_code) smap relevant_html
        (rest.1, call :: rest.2.1, rest.2.2)

/-- Model of run_scraping_job from the point where the document has been
fetched (the network fetch and its transport-error return, the temp-dir
and zip filesystem effects, and log emission are outside the model): build
the structure map and the initial excerpt once, then drive the attempt
loop.  Returns (terminal result, oracle calls in order, final history). -/
def run_scraping_job (env : JobEnv) :
    JobResult × List OracleCall × List HistoryEntry :=
  let structure_map := create_html_structure_map env.html_content
  let relevant_html := extract_relevant_html (parseHtml env.html_content) env.user_prompt
  attemptLoop env max_attempts 0 [] none structure_map relevant_html

/-! ## General helper lemmas -/

/-- Strings with different data are different. -/
theorem str_ne_of_data_ne {a b : String} (h : a.data ≠ b.data) : a ≠ b :=
  fun he => h (congrArg String.data he)

/-- Strings whose first characters differ are different. -/
theorem str_ne_of_head_ne {a b : String} {c1 c2 : Char}
    (ha : a.data.head? = some c1) (hb : b.data.head? = some c2) (h : c1 ≠ c2) :
    a ≠ b := by
  intro he
  rw [he, hb] at ha
  exact h (Option.some.inj ha.symm)

/-- A String.mk is empty exactly when its data is. -/
theorem mk_eq_empty_iff (l : List Char) : String.mk l = "" ↔ l = [] := by
  constructor
  · intro h
    exact congrArg String.data h
  · intro h; rw [h]

/-- The head of a non-trivial dropWhile result fails the predicate. -/
theorem dropWhile_head_not {p : Char → Bool} :
    ∀ {l : List Char} {c : Char} {t : List Char}, l.dropWhile p = c :: t → p c = false := by
  intro l
  induction l with
  | nil => intro c t h; simp [List.dropWhile] at h
  | cons a as2 ih =>
    intro c t h
    by_cases hp : p a
    · rw [List.dropWhile_cons_of_pos hp] at h; exact ih h
    · rw [List.dropWhile_cons_of_neg hp] at h
      cases h
      simpa using hp

/-- Every character of a string whose pyStrip is empty is whitespace. -/
theorem all_ws_of_pyStrip_empty {s : String} (h : pyStrip s = "") :
    ∀ c ∈ s.data, isPyWs c = true := by
  intro c hc
  by_contra hcw
  have hx : ((s.data.dropWhile isPyWs).reverse.dropWhile isPyWs).reverse = [] :=
    (mk_eq_empty_iff _).mp h
  have hy : (s.data.dropWhile isPyWs).reverse.dropWhile isPyWs = [] := by
    simpa using congrArg List.reverse hx
  have hally : ∀ a ∈ (s.data.dropWhile isPyWs).reverse, isPyWs a = true :=
    List.dropWhile_eq_nil_iff.mp hy
  have hmem : c ∈ s.data.takeWhile isPyWs ∨ c ∈ s.data.dropWhile isPyWs := by
    have htd : List.takeWhile isPyWs s.data ++ List.dropWhile isPyWs s.data = s.data :=
      List.takeWhile_append_dropWhile ..
    rw [← htd] at hc
    exact List.mem_append.mp hc
  rcases hmem with hm | hm
  · exact hcw (List.mem_takeWhile_imp hm)
  · exact hcw (hally c (List.mem_reverse.mpr hm))

/-- A string with non-empty pyStrip contains a non-whitespace character. -/
theorem exists_non_ws_of_pyStrip_ne {s : String} (h : pyStrip s ≠ "") :
    ∃ c ∈ (pyStrip s).data, isPyWs c = false := by
  have hne : ((s.data.dropWhile isPyWs).reverse.dropWhile isPyWs).reverse ≠ [] := by
    intro hx
    exact h ((mk_eq_empty_iff _).mpr hx)
  have hy : (s.data.dropWhile isPyWs).reverse.dropWhile isPyWs ≠ [] := by
    intro hx; apply hne; rw [hx]; rfl
  rcases hz : (s.data.dropWhile isPyWs).reverse.dropWhile isPyWs with _ | ⟨c, t⟩
  · exact absurd hz hy
  · refine ⟨c, ?_, dropWhile_head_not hz⟩
    show c ∈ (pyStrip s).data
    unfold pyStrip
    rw [hz]
    simp

/-- Whitespace-only input never parses as a JSON value. -/
theorem parseJsonValue_all_ws {fuel : Nat} {cs : List Char}
    (h : ∀ c ∈ cs, isPyWs c = true) : parseJsonValue fuel cs = none := by
  cases fuel with
  | zero => rfl
  | succ f =>
    rcases hz : cs.dropWhile jsonWs with _ | ⟨c, t⟩
    · simp [parseJsonValue, hz, listStartsWith]
    · have hcmem : c ∈ cs := by
        have hm : c ∈ cs.dropWhile jsonWs := by rw [hz]; exact List.mem_cons_self c t
        exact List.dropWhile_subset _ hm
      have hws := h c hcmem
      have hjw : jsonWs c = false := dropWhile_head_not hz
      simp only [isPyWs, Bool.or_eq_true, decide_eq_true_eq] at hws
      simp only [jsonWs, Bool.or_eq_false_iff, decide_eq_false_iff_not] at hjw
      have hc2 : c = '\x0b' ∨ c = '\x0c' := by tauto
      rcases hc2 with hc | hc <;> subst hc <;>
        simp [parseJsonValue, hz, listStartsWith, Char.isDigit]

/-- Model of the fact that json.loads raises on blank input: jsonLoads of a
whitespace-only string is none. -/
theorem jsonLoads_none_of_blank {s : String} (h : pyStrip s = "") :
    jsonLoads s = none := by
  unfold jsonLoads
  rw [parseJsonValue_all_ws (all_ws_of_pyStrip_empty h)]

/-! ## Claim theorems -/

/-- C8: run_script_in_dir is total (it cannot raise: every branch of the
model, including both timeout handlers and the pip-failure handler,
returns a {stdout, stderr, exit_code} record) and: a completed script run
is returned as-is whatever its exit code; a timeout of either subprocess
yields the fixed diagnostic "Script execution timed out after 60 seconds"
with exit code 1; a pip (install-time) failure yields the distinct
"Failed to install dependencies: ..." stderr with blank stdout and exit
code 1, distinguishable from any run-time script failure, whose streams
are passed through unchanged. -/
theorem C8_executor_contract (w : ExecWorld) :
    (∀ pOut pErr sOut sErr : String, ∀ n : Int,
      w.pip = .completed pOut pErr 0 → w.script = .completed sOut sErr n →
        run_script_in_dir w = ⟨sOut, sErr, n⟩) ∧
    (∀ pOut pErr : String,
      w.pip = .completed pOut pErr 0 → w.script = .timedOut →
        run_script_in_dir w = ⟨"", "Script execution timed out after 60 seconds", 1⟩) ∧
    (∀ pOut pErr : String, ∀ c : Int,
      w.pip = .completed pOut pErr c → c ≠ 0 →
        run_script_in_dir w =
          ⟨"", "Failed to install dependencies: " ++ pyStrip (pErr ++ "\n" ++ pOut), 1⟩) ∧
    (w.pip = .timedOut →
      run_script_in_dir w = ⟨"", "Script execution timed out after 60 seconds", 1⟩) := by
  refine ⟨?_, ?_, ?_, ?_⟩
  · intro pOut pErr sOut sErr n hp hs
    simp [run_script_in_dir, hp, hs]
  · intro pOut pErr hp hs
    simp [run_script_in_dir, hp, hs]
  · intro pOut pErr c hp hc
    simp [run_script_in_dir, hp, hc]
  · intro hp
    simp [run_script_in_dir, hp]

/-- Witness for C8: a concrete world with a non-zero script exit is returned
as a normal result. -/
theorem C8_executor_contract_witness :
    run_script_in_dir ⟨.completed "po" "pe" 0, .completed "data" "warn" 2⟩ =
      ⟨"data", "warn", 2⟩ :=
  (C8_executor_contract ⟨.completed "po" "pe" 0, .completed "data" "warn" 2⟩).1
    "po" "pe" "data" "warn" 2 rfl rfl

/-- C5: when the output parses as a JSON list and the objective contains a
literal integer (first digit run, value n), validate_scraper_results is:
invalid with the empty-list feedback for zero records; invalid with the
count feedback when the record count is below half of n (item_count <
n * 0.5, exactly 2 * item_count < n); and, absent the image-URL rule,
valid with the item-count feedback otherwise. -/
theorem C5_validator_count_rule (stdout user_prompt : String) (l : List Json) (n : Nat)
    (hjson : jsonLoads stdout = some (.arr l))
    (hnum : firstNumber user_prompt = some n)
    (himg : imageKeywords.any (fun k => containsSub (pyLower user_prompt) k) = false) :
    (l.length = 0 →
      validate_scraper_results stdout user_prompt =
        ⟨false, "The scraper returned an empty list. This could mean the CSS selectors are wrong or the data is loaded dynamically. Please try again."⟩) ∧
    (0 < l.length → 2 * l.length < n →
      validate_scraper_results stdout user_prompt =
        ⟨false, "Only found " ++ toString l.length ++ " items, but " ++ toString n ++
          " were requested. The scraper may need better selectors."⟩) ∧
    (0 < l.length → n ≤ 2 * l.length →
      validate_scraper_results stdout user_prompt =
        ⟨true, "Successfully extracted " ++ toString l.length ++ " items"⟩) := by
  have hblank : (pyStrip stdout == "") = false := by
    rcases hb : pyStrip stdout == "" <;> try rfl
    exfalso
    have : jsonLoads stdout = none := jsonLoads_none_of_blank (by exact eq_of_beq hb)
    rw [hjson] at this
    exact Option.noConfusion this
  refine ⟨?_, ?_, ?_⟩
  · intro hlen
    rw [validate_scraper_results, hblank, hjson]
    simp [hlen]
  · intro hpos hcount
    rw [validate_scraper_results, hblank, hjson]
    have hz : (l.length == 0) = false := by
      simp [Nat.pos_iff_ne_zero.mp hpos]
    simp only [Bool.false_eq_true, if_false, hz, hnum]
    rw [if_pos hcount]
  · intro hpos hge
    rw [validate_scraper_results, hblank, hjson]
    have hz : (l.length == 0) = false := by
      simp [Nat.pos_iff_ne_zero.mp hpos]
    have hlt : ¬(2 * l.length < n) := not_lt.mpr hge
    simp only [Bool.false_eq_true, if_false, hz, hnum, hlt, himg]

/-- Witness for C5: three records against "get 10 items" is invalid with the
count feedback (3 < 10 * 0.5). -/
theorem C5_validator_count_rule_witness :
    jsonLoads "[\x7b\x22a\x22: 1\x7d, \x7b\x22a\x22: 2\x7d, \x7b\x22a\x22: 3\x7d]" =
      some (.arr [.obj [("a", .num "1")], .obj [("a", .num "2")], .obj [("a", .num "3")]]) ∧
    validate_scraper_results "[\x7b\x22a\x22: 1\x7d, \x7b\x22a\x22: 2\x7d, \x7b\x22a\x22: 3\x7d]"
        "get 10 items" =
      ⟨false, "Only found 3 items, but 10 were requested. The scraper may need better selectors."⟩ :=
  ⟨rfl,
   (C5_validator_count_rule
      "[\x7b\x22a\x22: 1\x7d, \x7b\x22a\x22: 2\x7d, \x7b\x22a\x22: 3\x7d]" "get 10 items"
      [.obj [("a", .num "1")], .obj [("a", .num "2")], .obj [("a", .num "3")]] 10
      rfl (by decide) (by decide)).2.1 (by decide) (by decide)⟩

/-- Data of an appended string. -/
theorem data_append (a b : String) : (a ++ b).data = a.data ++ b.data := by
  cases a; cases b; rfl

/-- Verdicts with different feedback are different. -/
theorem verdict_ne_of_feedback_ne {v w : Verdict} (h : v.feedback ≠ w.feedback) :
    v ≠ w := fun he => h (congrArg Verdict.feedback he)

/-- Verdicts with different validity are different. -/
theorem verdict_ne_of_valid_ne {v w : Verdict} (h : v.valid ≠ w.valid) :
    v ≠ w := fun he => h (congrArg Verdict.valid he)

/-- A split of a character list that contains a non-whitespace character (in
the pending accumulator or the remaining input) has a line that is
non-blank after stripping. -/
theorem splitCharAux_any_nonblank :
    ∀ (l acc : List Char),
      ((∃ c ∈ acc, isPyWs c = false) ∨ (∃ c ∈ l, isPyWs c = false)) →
      (splitCharAux l '\n' acc).any (fun ln => !(pyStrip ln == "")) = true := by
  intro l
  induction l with
  | nil =>
    intro acc h
    rcases h with ⟨c, hm, hw⟩ | ⟨c, hm, _⟩
    · simp only [splitCharAux, List.any_cons, List.any_nil, Bool.or_false]
      rcases hb : pyStrip (String.mk acc.reverse) == "" with _ | _
      · rfl
      · exfalso
        have hws := all_ws_of_pyStrip_empty (eq_of_beq hb) c (by simpa using hm)
        rw [hws] at hw
        exact Bool.noConfusion hw
    · exact absurd hm (List.not_mem_nil c)
  | cons a as2 ih =>
    intro acc h
    by_cases ha : a = '\n'
    · subst ha
      rw [show splitCharAux ('\n' :: as2) '\n' acc =
            String.mk acc.reverse :: splitCharAux as2 '\n' [] from by
          simp [splitCharAux]]
      rcases h with ⟨c, hm, hw⟩ | ⟨c, hm, hw⟩
      · simp only [List.any_cons]
        rcases hb : pyStrip (String.mk acc.reverse) == "" with _ | _
        · rfl
        · exfalso
          have hws := all_ws_of_pyStrip_empty (eq_of_beq hb) c (by simpa using hm)
          rw [hws] at hw
          exact Bool.noConfusion hw
      · rcases List.mem_cons.mp hm with hc | hc
        · exfalso; subst hc; exact Bool.noConfusion (hw.symm.trans (by rfl))
        · simp only [List.any_cons]
          rw [ih [] (Or.inr ⟨c, hc, hw⟩)]
          simp
    · rw [show splitCharAux (a :: as2) '\n' acc = splitCharAux as2 '\n' (a :: acc) from by
          simp [splitCharAux, ha]]
      apply ih
      rcases h with ⟨c, hm, hw⟩ | ⟨c, hm, hw⟩
      · exact Or.inl ⟨c, List.mem_cons_of_mem a hm, hw⟩
      · rcases List.mem_cons.mp hm with hc | hc
        · exact Or.inl ⟨c, by rw [hc]; exact List.mem_cons_self a acc, hw⟩
        · exact Or.inr ⟨c, hc, hw⟩

/-- Is a JSON value a scalar (neither a list nor an object)? -/
def jsonScalar : Json → Bool
  | .arr _ => false
  | .obj _ => false
  | _ => true

/-- C10: for output with at least one non-whitespace character, if the
output does not parse as JSON then validate_scraper_results is valid with
the line-count feedback (so the generic "doesn't appear to contain
structured data" verdict is unreachable for non-JSON input); and the
generic verdict is returned exactly when the output parses as a JSON
scalar (number, string, boolean, or null / NaN / Infinity). -/
theorem C10_nonjson_valid_generic_iff_scalar (stdout user_prompt : String)
    (hne : pyStrip stdout ≠ "") :
    (jsonLoads stdout = none →
      validate_scraper_results stdout user_prompt =
        ⟨true, "Successfully extracted " ++
          toString (pySplitChar (pyStrip stdout) '\n').length ++ " lines of data"⟩) ∧
    (validate_scraper_results stdout user_prompt = genericVerdict ↔
      ∃ j, jsonLoads stdout = some j ∧ jsonScalar j = true) := by
  have hblank : (pyStrip stdout == "") = false := by
    rcases hb : pyStrip stdout == "" with _ | _
    · rfl
    · exact absurd (eq_of_beq hb) hne
  have hlineAny :
      (pySplitChar (pyStrip stdout) '\n').any (fun ln => !(pyStrip ln == "")) = true := by
    obtain ⟨c, hm, hw⟩ := exists_non_ws_of_pyStrip_ne hne
    exact splitCharAux_any_nonblank _ [] (Or.inr ⟨c, hm, hw⟩)
  have hlinePos : 0 < (pySplitChar (pyStrip stdout) '\n').length := by
    rcases List.any_eq_true.mp hlineAny with ⟨x, hx, _⟩
    exact List.length_pos.mpr (List.ne_nil_of_mem hx)
  have hline : jsonLoads stdout = none →
      validate_scraper_results stdout user_prompt =
        ⟨true, "Successfully extracted " ++
          toString (pySplitChar (pyStrip stdout) '\n').length ++ " lines of data"⟩ := by
    intro hj
    rw [validate_scraper_results, hblank, hj]
    simp only [Bool.false_eq_true, if_false]
    rw [if_pos]
    rw [hlineAny, decide_eq_true hlinePos]
    rfl
  refine ⟨hline, ?_⟩
  rcases hj : jsonLoads stdout with _ | j
  · constructor
    · intro hgen
      rw [hline hj] at hgen
      exact Bool.noConfusion (congrArg Verdict.valid hgen)
    · rintro ⟨j, hj2, _⟩
      exact Option.noConfusion hj2
  · cases j with
    | null =>
      rw [validate_scraper_results, hblank, hj]
      simp only [Bool.false_eq_true, if_false]
      exact iff_of_true trivial ⟨.null, rfl, rfl⟩
    | bool b =>
      rw [validate_scraper_results, hblank, hj]
      simp only [Bool.false_eq_true, if_false]
      exact iff_of_true trivial ⟨.bool b, rfl, rfl⟩
    | num raw =>
      rw [validate_scraper_results, hblank, hj]
      simp only [Bool.false_eq_true, if_false]
      exact iff_of_true trivial ⟨.num raw, rfl, rfl⟩
    | str s =>
      rw [validate_scraper_results, hblank, hj]
      simp only [Bool.false_eq_true, if_false]
      exact iff_of_true trivial ⟨.str s, rfl, rfl⟩
    | arr l =>
      apply iff_of_false
      · rw [validate_scraper_results, hblank, hj]
        simp only [Bool.false_eq_true, if_false]
        rcases hbz : l.length == 0 with _ | _
        · have hpos : 0 < l.length :=
            Nat.pos_of_ne_zero (by simpa using hbz)
          simp only [hbz, Bool.false_eq_true, if_false]
          rcases hn : firstNumber user_prompt with _ | n
          · rcases hi : imageKeywords.any (fun k => containsSub (pyLower user_prompt) k)
              with _ | _
            · simp only [hi, Bool.false_eq_true, if_false]
              exact verdict_ne_of_valid_ne (fun h2 => Bool.noConfusion h2)
            · rcases hu : (l.take 3).any (fun item =>
                  containsSub (pyLower (pyStrJson item)) "url" ||
                    containsSub (pyStrJson item) "http") with _ | _
              · simp only [hi, hu, if_true, if_pos hpos, Bool.not_false]
                exact verdict_ne_of_feedback_ne (by decide)
              · simp only [hi, hu, if_true, if_pos hpos, Bool.not_true,
                  Bool.false_eq_true, if_false]
                exact verdict_ne_of_valid_ne (fun h2 => Bool.noConfusion h2)
          · by_cases hlt : 2 * l.length < n
            · simp only [hbz, Bool.false_eq_true, if_false, if_pos hlt]
              exact verdict_ne_of_feedback_ne (str_ne_of_head_ne rfl rfl (by decide))
            · simp only [hbz, Bool.false_eq_true, if_false, if_neg hlt]
              rcases hi : imageKeywords.any (fun k => containsSub (pyLower user_prompt) k)
                with _ | _
              · simp only [hi, Bool.false_eq_true, if_false]
                exact verdict_ne_of_valid_ne (fun h2 => Bool.noConfusion h2)
              · rcases hu : (l.take 3).any (fun item =>
                    containsSub (pyLower (pyStrJson item)) "url" ||
                      containsSub (pyStrJson item) "http") with _ | _
                · simp only [hi, hu, if_true, if_pos hpos, Bool.not_false]
                  exact verdict_ne_of_feedback_ne (by decide)
                · simp only [hi, hu, if_true, if_pos hpos, Bool.not_true,
                    Bool.false_eq_true, if_false]
                  exact verdict_ne_of_valid_ne (fun h2 => Bool.noConfusion h2)
        · simp only [hbz, if_true]
          exact verdict_ne_of_feedback_ne (by decide)
      · rintro ⟨j, hj2, hs⟩
        cases Option.some.inj hj2
        exact Bool.noConfusion hs
    | obj f =>
      apply iff_of_false
      · rw [validate_scraper_results, hblank, hj]
        simp only [Bool.false_eq_true, if_false]
        rcases hf : f.isEmpty with _ | _
        · simp only [hf, Bool.false_eq_true, if_false]
          exact verdict_ne_of_valid_ne (fun h2 => Bool.noConfusion h2)
        · simp only [hf, if_true]
          exact verdict_ne_of_feedback_ne (by decide)
      · rintro ⟨j, hj2, hs⟩
        cases Option.some.inj hj2
        exact Bool.noConfusion hs

/-- Witness for C10: the non-JSON output "line1(newline)line2" is accepted
with a two-line feedback, and the JSON scalar "5" yields exactly the
generic invalid verdict. -/
theorem C10_nonjson_valid_generic_iff_scalar_witness :
    pyStrip "line1\nline2" ≠ "" ∧
    validate_scraper_results "line1\nline2" "get text" =
      ⟨true, "Successfully extracted 2 lines of data"⟩ ∧
    validate_scraper_results "5" "get text" = genericVerdict :=
  ⟨by decide,
   (C10_nonjson_valid_generic_iff_scalar "line1\nline2" "get text" (by decide)).1 rfl,
   (C10_nonjson_valid_generic_iff_scalar "5" "get text" (by decide)).2.mpr
     ⟨.num "5", rfl, rfl⟩⟩

/-- C7: the context expander is total (every branch of the model returns a
string, so the function never raises; the Python except-branch returning
the whole input unchanged is unreachable in the model) and in each of the
three no-anchor situations — no significant element in the snippet, an
anchor element with no text, or no text-node match in the full document —
it returns the full document's body (the raw input when the document has
no body element). -/
theorem C7_expander_fallback (full_html last_snippet : String) :
    (firstSignificantLoc (parseHtml last_snippet) = none →
      _expand_html_context full_html last_snippet =
        bodyOr (parseHtml full_html) full_html) ∧
    (∀ el, firstSignificantLoc (parseHtml last_snippet) = some el →
      getTextStripped el.node = "" →
      _expand_html_context full_html last_snippet =
        bodyOr (parseHtml full_html) full_html) ∧
    (∀ el, firstSignificantLoc (parseHtml last_snippet) = some el →
      getTextStripped el.node ≠ "" →
      firstTextMatchLoc (parseHtml full_html)
          ((pySplitWs (getTextStripped el.node)).take 15) = none →
      _expand_html_context full_html last_snippet =
        bodyOr (parseHtml full_html) full_html) := by
  refine ⟨?_, ?_, ?_⟩
  · intro h
    simp only [_expand_html_context, h]
  · intro el h htext
    simp only [_expand_html_context, h, htext]
    simp
  · intro el h htext hmatch
    have hfalse : (getTextStripped el.node == "") = false :=
      beq_eq_false_iff_ne.mpr htext
    simp only [_expand_html_context, h, hfalse, Bool.false_eq_true, if_false, hmatch]

/-- Witness for C7: an empty snippet has no significant element, so expansion
of a concrete document falls back to its body. -/
theorem C7_expander_fallback_witness :
    firstSignificantLoc (parseHtml "") = none ∧
    _expand_html_context "<html><body><p>hi</p></body></html>" "" =
      bodyOr (parseHtml "<html><body><p>hi</p></body></html>")
        "<html><body><p>hi</p></body></html>" ∧
    bodyOr (parseHtml "<html><body><p>hi</p></body></html>")
        "<html><body><p>hi</p></body></html>" = "<body><p>hi</p></body>" :=
  ⟨rfl, (C7_expander_fallback "<html><body><p>hi</p></body></html>" "").1 rfl, rfl⟩

/-! ## Invariants of the attempt loop -/

/-- One non-final iteration of the loop either terminates (success or
action-required), recording exactly one oracle call and leaving the
history unchanged, or records one oracle call, appends exactly one history
entry whose recorded excerpt is the excerpt the iteration used, and
recurses on the next attempt carrying that excerpt. -/
theorem attemptLoop_succ_cases (env : JobEnv) (fuel attempt : Nat)
    (hist : List HistoryEntry) (lc : Option String) (smap prev : String) :
    (∃ res, attemptLoop env (fuel + 1) attempt hist lc smap prev =
      (res, [⟨hist, loopExcerpt env attempt hist prev, loopSmap attempt hist smap⟩], hist)) ∨
    (∃ entry lc2, HistoryEntry.html_snippet entry = loopExcerpt env attempt hist prev ∧
      attemptLoop env (fuel + 1) attempt hist lc smap prev =
        ((attemptLoop env fuel (attempt + 1) (hist ++ [entry]) lc2 smap
            (loopExcerpt env attempt hist prev)).1,
         ⟨hist, loopExcerpt env attempt hist prev, loopSmap attempt hist smap⟩ ::
           (attemptLoop env fuel (attempt + 1) (hist ++ [entry]) lc2 smap
              (loopExcerpt env attempt hist prev)).2.1,
         (attemptLoop env fuel (attempt + 1) (hist ++ [entry]) lc2 smap
            (loopExcerpt env attempt hist prev)).2.2)) := by
  simp only [attemptLoop]
  split
  · right
    refine ⟨_, _, ?_, rfl⟩
    rfl
  · split
    · split
      · left
        exact ⟨_, rfl⟩
      · right
        refine ⟨_, _, ?_, rfl⟩
        rfl
    · split
      · left
        exact ⟨_, rfl⟩
      · right
        refine ⟨_, _, ?_, rfl⟩
        rfl

/-- The first oracle call a non-final loop invocation records is always for
the current state: the history so far, the excerpt this iteration uses,
and the structure map only when this is the first attempt. -/
theorem attemptLoop_head_call (env : JobEnv) (fuel attempt : Nat)
    (hist : List HistoryEntry) (lc : Option String) (smap prev : String) :
    (attemptLoop env (fuel + 1) attempt hist lc smap prev).2.1.head? =
      some ⟨hist, loopExcerpt env attempt hist prev, loopSmap attempt hist smap⟩ := by
  rcases attemptLoop_succ_cases env fuel attempt hist lc smap prev with ⟨res, he⟩ |
    ⟨entry, lc2, _, he⟩ <;> rw [he] <;> rfl

/-- The loop at fuel zero fails with the history it was given. -/
theorem attemptLoop_zero (env : JobEnv) (attempt : Nat) (hist : List HistoryEntry)
    (lc : Option String) (smap prev : String) :
    attemptLoop env 0 attempt hist lc smap prev = (finalFailureResult hist, [], hist) := rfl

/-- Trace invariants of the attempt loop, for any environment: the final
history extends the initial one; at most one history entry is appended
per oracle call; the history passed with the k-th oracle call is exactly
the prefix of the final history that precedes that attempt's entry; every
oracle call k that is followed by another call has appended a history
entry recording exactly the excerpt call k used; and the excerpt of every
call after the first is the context expansion of the previous call's
excerpt. -/
theorem attemptLoop_trace_inv (env : JobEnv) :
    ∀ (fuel attempt : Nat) (hist : List HistoryEntry) (lc : Option String)
      (smap prev : String),
      (∃ ext, (attemptLoop env fuel attempt hist lc smap prev).2.2 = hist ++ ext) ∧
      (hist.length + (attemptLoop env fuel attempt hist lc smap prev).2.1.length ≤
        (attemptLoop env fuel attempt hist lc smap prev).2.2.length + 1) ∧
      (∀ k c, (attemptLoop env fuel attempt hist lc smap prev).2.1.get? k = some c →
        c.history =
          (attemptLoop env fuel attempt hist lc smap prev).2.2.take (hist.length + k)) ∧
      (∀ k, k + 1 < (attemptLoop env fuel attempt hist lc smap prev).2.1.length →
        ∃ e c, (attemptLoop env fuel attempt hist lc smap prev).2.2.get?
            (hist.length + k) = some e ∧
          (attemptLoop env fuel attempt hist lc smap prev).2.1.get? k = some c ∧
          e.html_snippet = c.relevant_html) ∧
      (∀ k c c2, (attemptLoop env fuel attempt hist lc smap prev).2.1.get? k = some c →
        (attemptLoop env fuel attempt hist lc smap prev).2.1.get? (k + 1) = some c2 →
        c2.relevant_html = _expand_html_context env.html_content c.relevant_html) := by
  intro fuel
  induction fuel with
  | zero =>
    intro attempt hist lc smap prev
    rw [attemptLoop_zero]
    refine ⟨⟨[], by simp⟩, by simp, ?_, ?_, ?_⟩
    · intro k c hc
      simp at hc
    · intro k hk
      simp at hk
    · intro k c c2 hc
      simp at hc
  | succ fuel ih =>
    intro attempt hist lc smap prev
    rcases attemptLoop_succ_cases env fuel attempt hist lc smap prev with ⟨res, he⟩ |
      ⟨entry, lc2, hsnip, he⟩
    · rw [he]
      refine ⟨⟨[], by simp⟩, by simp, ?_, ?_, ?_⟩
      · intro k c hc
        cases k with
        | zero =>
          cases Option.some.inj hc
          simp [List.take_length]
        | succ k2 => simp at hc
      · intro k hk
        simp at hk
      · intro k c c2 hc hc2
        cases k with
        | zero => simp at hc2
        | succ k2 => simp at hc
    · rw [he]
      obtain ⟨hext, hlen, htake, hentry, hlink⟩ :=
        ih (attempt + 1) (hist ++ [entry]) lc2 smap (loopExcerpt env attempt hist prev)
      obtain ⟨ext, hext⟩ := hext
      refine ⟨⟨entry :: ext, by rw [hext]; simp⟩, ?_, ?_, ?_, ?_⟩
      · simp only [List.length_cons]
        have := hlen
        simp only [List.length_append, List.length_cons, List.length_nil] at this
        omega
      · intro k c hc
        cases k with
        | zero =>
          cases Option.some.inj hc
          show hist = _
          rw [hext]
          rw [Nat.add_zero, List.append_assoc]
          have htl : (hist ++ ([entry] ++ ext)).take hist.length = hist :=
            List.take_left ..
          exact htl.symm
        | succ k2 =>
          have h3 := htake k2 c hc
          rw [h3]
          congr 1
          simp [List.length_append]
          omega
      · intro k hk
        cases k with
        | zero =>
          refine ⟨entry, ⟨hist, loopExcerpt env attempt hist prev,
            loopSmap attempt hist smap⟩, ?_, rfl, hsnip⟩
          rw [hext, Nat.add_zero, List.append_assoc]
          rw [List.get?_append_right (Nat.le_refl hist.length)]
          simp
        | succ k2 =>
          simp only [List.length_cons, Nat.succ_lt_succ_iff] at hk
          obtain ⟨e, c, he2, hc2, hs⟩ := hentry k2 hk
          refine ⟨e, c, ?_, hc2, hs⟩
          rw [← he2]
          congr 1
          simp [List.length_append]
          omega
      · intro k c c2 hc hc2
        cases k with
        | zero =>
          cases Option.some.inj hc
          show c2.relevant_html = _expand_html_context env.html_content
            (loopExcerpt env attempt hist prev)
          have hc2h : (attemptLoop env fuel (attempt + 1) (hist ++ [entry]) lc2 smap
              (loopExcerpt env attempt hist prev)).2.1.get? 0 = some c2 := hc2
          cases fuel with
          | zero =>
            rw [attemptLoop_zero] at hc2h
            simp at hc2h
          | succ fuel2 =>
            have hhead := attemptLoop_head_call env fuel2 (attempt + 1)
              (hist ++ [entry]) lc2 smap (loopExcerpt env attempt hist prev)
            rw [← List.get?_zero] at hhead
            rw [hc2h] at hhead
            cases Option.some.inj hhead
            show loopExcerpt env (attempt + 1) (hist ++ [entry])
              (loopExcerpt env attempt hist prev) = _
            rw [loopExcerpt]
            rw [if_pos (by simp)]
            rw [List.getLast?_concat]
            simp [hsnip]
        | succ k2 =>
          exact hlink k2 c c2 hc hc2

/-- The history entry an iteration appends when the script ran (exit 0,
non-blank stdout) but validation rejected the output. -/
def invalidEntry (env : JobEnv) (attempt : Nat) (g : GenResult) (rh : String) :
    HistoryEntry :=
  { reason := (validate_scraper_results (env.exec attempt g).stdout env.user_prompt).feedback
    code := g.scraper_py
    stdout := _truncate_preview (env.exec attempt g).stdout 2000
    stderr := _truncate_preview (env.exec attempt g).stderr 2000
    html_snippet := rh }

/-- When generation succeeds, the script runs with exit code 0 and non-blank
stdout, and validation rejects, the iteration appends the corresponding
failure record and recurses. -/
theorem attemptLoop_succ_of_invalid (env : JobEnv) (fuel attempt : Nat)
    (hist : List HistoryEntry) (lc : Option String) (smap prev : String) (g : GenResult)
    (hg : env.gen attempt (loopExcerpt env attempt hist prev) hist
      (loopSmap attempt hist smap) = Except.ok g)
    (hc : ((env.exec attempt g).exit_code == 0 &&
      !(pyStrip (env.exec attempt g).stdout == "")) = true)
    (hv : (validate_scraper_results (env.exec attempt g).stdout env.user_prompt).valid
      = false) :
    attemptLoop env (fuel + 1) attempt hist lc smap prev =
      ((attemptLoop env fuel (attempt + 1)
          (hist ++ [invalidEntry env attempt g (loopExcerpt env attempt hist prev)])
          (some g.scraper_py) smap (loopExcerpt env attempt hist prev)).1,
       ⟨hist, loopExcerpt env attempt hist prev, loopSmap attempt hist smap⟩ ::
         (attemptLoop env fuel (attempt + 1)
            (hist ++ [invalidEntry env attempt g (loopExcerpt env attempt hist prev)])
            (some g.scraper_py) smap (loopExcerpt env attempt hist prev)).2.1,
       (attemptLoop env fuel (attempt + 1)
          (hist ++ [invalidEntry env attempt g (loopExcerpt env attempt hist prev)])
          (some g.scraper_py) smap (loopExcerpt env attempt hist prev)).2.2) := by
  simp only [attemptLoop]
  split
  · next e heq =>
    rw [hg] at heq
    exact Except.noConfusion heq
  · next result heq =>
    rw [hg] at heq
    cases Except.ok.inj heq
    split
    · split
      · next hvt =>
        rw [hv] at hvt
        exact Bool.noConfusion hvt
      · rfl
    · next hcf =>
      rw [hc] at hcf
      exact absurd rfl hcf

/-- C3 (amended): at any reached attempt, when generation succeeded but the
execution result is not a successful run (not both exit code 0 and
non-blank stdout) and its stderr contains the case-insensitive
"playwright install" marker, the loop terminates immediately with the
ActionRequired result (artifact packaged for download, instruction
message returned), recording this one oracle call and consuming no
further attempts.  The unamended claim also covered execution results
with exit code 0 and non-blank stdout, but those take the validation
branch first (the marker test is an elif), see the counterexample. -/
theorem C3_marker_action_required (env : JobEnv) (fuel attempt : Nat)
    (hist : List HistoryEntry) (lc : Option String) (smap prev : String) (g : GenResult)
    (hg : env.gen attempt (loopExcerpt env attempt hist prev) hist
      (loopSmap attempt hist smap) = Except.ok g)
    (hns : ((env.exec attempt g).exit_code == 0 &&
      !(pyStrip (env.exec attempt g).stdout == "")) = false)
    (hp : containsSub (pyLower (env.exec attempt g).stderr) "playwright install" = true) :
    attemptLoop env (fuel + 1) attempt hist lc smap prev =
      (actionRequiredResult env,
       [⟨hist, loopExcerpt env attempt hist prev, loopSmap attempt hist smap⟩], hist) ∧
    (actionRequiredResult env).status = "action_required" ∧
    (actionRequiredResult env).download_url = some ("/api/download/" ++ env.run_id) := by
  refine ⟨?_, rfl, rfl⟩
  simp only [attemptLoop]
  split
  · next e heq =>
    rw [hg] at heq
    exact Except.noConfusion heq
  · next result heq =>
    rw [hg] at heq
    cases Except.ok.inj heq
    split
    · next hct =>
      rw [hns] at hct
      exact Bool.noConfusion hct
    · rfl

/-- When every attempt generates successfully, runs with exit code 0 and
non-blank stdout, and fails validation, the loop consumes all its fuel,
appends one failure record per attempt, and ends with the Failed result
built from the final history. -/
theorem attemptLoop_all_invalid (env : JobEnv)
    (hgen : ∀ i r h s, ∃ g, env.gen i r h s = Except.ok g)
    (hexec : ∀ i g, (env.exec i g).exit_code = 0 ∧ pyStrip (env.exec i g).stdout ≠ "" ∧
      (validate_scraper_results (env.exec i g).stdout env.user_prompt).valid = false) :
    ∀ (fuel attempt : Nat) (hist : List HistoryEntry) (lc : Option String)
      (smap prev : String),
      (attemptLoop env fuel attempt hist lc smap prev).1 =
        finalFailureResult (attemptLoop env fuel attempt hist lc smap prev).2.2 ∧
      (attemptLoop env fuel attempt hist lc smap prev).2.1.length = fuel ∧
      (attemptLoop env fuel attempt hist lc smap prev).2.2.length = hist.length + fuel := by
  intro fuel
  induction fuel with
  | zero =>
    intro attempt hist lc smap prev
    rw [attemptLoop_zero]
    exact ⟨rfl, rfl, by simp⟩
  | succ fuel ih =>
    intro attempt hist lc smap prev
    obtain ⟨g, hg⟩ := hgen attempt (loopExcerpt env attempt hist prev) hist
      (loopSmap attempt hist smap)
    obtain ⟨h0, hnb, hv⟩ := hexec attempt g
    have hc : ((env.exec attempt g).exit_code == 0 &&
        !(pyStrip (env.exec attempt g).stdout == "")) = true := by
      rw [h0]
      simp [hnb]
    rw [attemptLoop_succ_of_invalid env fuel attempt hist lc smap prev g hg hc hv]
    obtain ⟨ih1, ih2, ih3⟩ := ih (attempt + 1)
      (hist ++ [invalidEntry env attempt g (loopExcerpt env attempt hist prev)])
      (some g.scraper_py) smap (loopExcerpt env attempt hist prev)
    refine ⟨ih1, by simp [ih2], ?_⟩
    rw [ih3]
    simp only [List.length_append, List.length_cons, List.length_nil]
    omega

/-- C1: when every attempt's execution result reaches validation (exit code
0, non-blank stdout) and fails it — and the manual-setup marker never
appears, though the exit-code-0 branch shields the marker test anyway —
the job terminates with status "error" after exactly max_attempts = 5
oracle calls, the failure history has length exactly max_attempts, and
the result's diagnostic detail carries the last recorded attempt's reason
and stderr. -/
theorem C1_all_invalid_job_fails (env : JobEnv)
    (hgen : ∀ i r h s, ∃ g, env.gen i r h s = Except.ok g)
    (hexec : ∀ i g, (env.exec i g).exit_code = 0 ∧ pyStrip (env.exec i g).stdout ≠ "" ∧
      (validate_scraper_results (env.exec i g).stdout env.user_prompt).valid = false)
    (hmarker : ∀ i g,
      containsSub (pyLower (env.exec i g).stderr) "playwright install" = false) :
    (run_scraping_job env).1.status = "error" ∧
    (run_scraping_job env).2.1.length = max_attempts ∧
    (run_scraping_job env).2.2.length = max_attempts ∧
    ∃ last, (run_scraping_job env).2.2.getLast? = some last ∧
      (run_scraping_job env).1.final_error =
        some ("Final attempt failed: " ++ last.reason ++ "\n\nSTDERR:\n" ++ last.stderr) := by
  obtain ⟨h1, h2, h3⟩ := attemptLoop_all_invalid env hgen hexec max_attempts 0 [] none
    (create_html_structure_map env.html_content)
    (extract_relevant_html (parseHtml env.html_content) env.user_prompt)
  have hrun : run_scraping_job env = attemptLoop env max_attempts 0 [] none
      (create_html_structure_map env.html_content)
      (extract_relevant_html (parseHtml env.html_content) env.user_prompt) := rfl
  rw [hrun]
  have hlenpos : (attemptLoop env max_attempts 0 [] none
      (create_html_structure_map env.html_content)
      (extract_relevant_html (parseHtml env.html_content) env.user_prompt)).2.2 ≠ [] := by
    intro hnil
    rw [hnil] at h3
    simp [max_attempts] at h3
  obtain ⟨last, hlast⟩ := Option.isSome_iff_exists.mp
    (List.getLast?_isSome.mpr hlenpos)
  refine ⟨by rw [h1]; rfl, h2, by simpa using h3, last, hlast, ?_⟩
  rw [h1]
  unfold finalFailureResult
  rw [hlast]

/-- C2: the failure history passed to the oracle on attempt i contains
exactly i entries — precisely the records of attempts 0..i-1 of the final
history, in original attempt order and unmodified (a take-prefix of the
final history) — and each such record stores as html_snippet exactly the
excerpt its attempt used. -/
theorem C2_oracle_history_exact (env : JobEnv) :
    ∀ i c, (run_scraping_job env).2.1.get? i = some c →
      c.history.length = i ∧
      c.history = (run_scraping_job env).2.2.take i ∧
      ∀ j, j < i → ∃ e cj, (run_scraping_job env).2.2.get? j = some e ∧
        (run_scraping_job env).2.1.get? j = some cj ∧
        e.html_snippet = cj.relevant_html := by
  intro i c hc
  obtain ⟨⟨ext, hext⟩, hlen, htake, hentry, _⟩ := attemptLoop_trace_inv env max_attempts 0
    [] none (create_html_structure_map env.html_content)
    (extract_relevant_html (parseHtml env.html_content) env.user_prompt)
  have hrun : run_scraping_job env = attemptLoop env max_attempts 0 [] none
      (create_html_structure_map env.html_content)
      (extract_relevant_html (parseHtml env.html_content) env.user_prompt) := rfl
  rw [hrun] at hc ⊢
  have hi : i < (attemptLoop env max_attempts 0 [] none
      (create_html_structure_map env.html_content)
      (extract_relevant_html (parseHtml env.html_content) env.user_prompt)).2.1.length :=
    List.get?_eq_some.mp hc |>.1
  simp only [List.length_nil, Nat.zero_add] at hlen htake hentry
  have htk := htake i c hc
  have hile : i ≤ (attemptLoop env max_attempts 0 [] none
      (create_html_structure_map env.html_content)
      (extract_relevant_html (parseHtml env.html_content) env.user_prompt)).2.2.length := by
    omega
  refine ⟨?_, htk, ?_⟩
  · rw [htk]
    simp [List.length_take]
    omega
  · intro j hj
    exact hentry j (by omega)

/-- C6 (amended): within a job's retry sequence the excerpt used on each
attempt after the first is exactly the context expansion
(_expand_html_context) of the full document against the prior attempt's
excerpt; expansion can shrink the excerpt, so monotone non-decreasing
length does not hold (see the counterexample). -/
theorem C6_retry_excerpt_is_expansion (env : JobEnv) :
    ∀ k c c2, (run_scraping_job env).2.1.get? k = some c →
      (run_scraping_job env).2.1.get? (k + 1) = some c2 →
      c2.relevant_html = _expand_html_context env.html_content c.relevant_html := by
  intro k c c2 hc hc2
  obtain ⟨_, _, _, _, hlink⟩ := attemptLoop_trace_inv env max_attempts 0
    [] none (create_html_structure_map env.html_content)
    (extract_relevant_html (parseHtml env.html_content) env.user_prompt)
  exact hlink k c c2 hc hc2

/-- When generation succeeds, the script runs with exit code 0 and non-blank
stdout, and validation accepts, the iteration returns the Succeeded
result at once. -/
theorem attemptLoop_succ_of_valid (env : JobEnv) (fuel attempt : Nat)
    (hist : List HistoryEntry) (lc : Option String) (smap prev : String) (g : GenResult)
    (hg : env.gen attempt (loopExcerpt env attempt hist prev) hist
      (loopSmap attempt hist smap) = Except.ok g)
    (hc : ((env.exec attempt g).exit_code == 0 &&
      !(pyStrip (env.exec attempt g).stdout == "")) = true)
    (hv : (validate_scraper_results (env.exec attempt g).stdout env.user_prompt).valid
      = true) :
    attemptLoop env (fuel + 1) attempt hist lc smap prev =
      (successResult env (env.exec attempt g).stdout,
       [⟨hist, loopExcerpt env attempt hist prev, loopSmap attempt hist smap⟩], hist) := by
  simp only [attemptLoop]
  split
  · next e heq =>
    rw [hg] at heq
    exact Except.noConfusion heq
  · next result heq =>
    rw [hg] at heq
    cases Except.ok.inj heq
    split <;> rfl

/-- The excerpt used by attempt 0 is the one carried in (the initial
relevance-reduced excerpt). -/
theorem loopExcerpt_zero (env : JobEnv) (hist : List HistoryEntry) (prev : String) :
    loopExcerpt env 0 hist prev = prev := by
  simp [loopExcerpt]

/-! ## Concrete environments for witnesses and counterexamples -/

/-- The concrete document used by the retry-sequence counterexample. -/
def c6html : String :=
  "<html><body><div><span>zqx wvb</span></div><section><b><a></a></b></section><p>some padding text goes here</p></body></html>"

/-- The excerpt relevance reduction produces for c6html and objective
"link": the contextual block for the a element plus the body fallback. -/
def c6e0 : String :=
  "<section><b><a></a></b></section>\n\n<body><div><span>zqx wvb</span></div><section><b><a></a></b></section><p>some padding text goes here</p></body>"

/-- The excerpt attempt 1 uses: the anchor (the section, whose a element has
no text) is not locatable, so expansion falls back to the whole body. -/
def c6e1 : String :=
  "<body><div><span>zqx wvb</span></div><section><b><a></a></b></section><p>some padding text goes here</p></body>"

/-- The excerpt attempt 2 uses: anchoring on the body's first div, the text
"zqx wvb" is found inside the span, whose parent is the div — a strictly
smaller excerpt than c6e1. -/
def c6e2 : String := "<div><span>zqx wvb</span></div>"

set_option maxRecDepth 40000 in
/-- Relevance reduction of c6html for objective "link". -/
theorem c6_extract : extract_relevant_html (parseHtml c6html) "link" = c6e0 := by decide

set_option maxRecDepth 40000 in
/-- Expansion of the attempt-0 excerpt falls back to the whole body. -/
theorem c6_exp0 : _expand_html_context c6html c6e0 = c6e1 := by decide

set_option maxRecDepth 40000 in
/-- Expansion of the attempt-1 excerpt shrinks to the anchor's parent div. -/
theorem c6_exp1 : _expand_html_context c6html c6e1 = c6e2 := by decide

/-- A job whose oracle always returns the same artifact and whose execution
always prints the JSON scalar 5, which validation always rejects. -/
def invalidRunEnv : JobEnv :=
  { user_prompt := "link"
    run_id := "r1"
    html_content := c6html
    gen := fun _ _ _ _ => Except.ok ⟨"print(5)", "requests"⟩
    exec := fun _ _ => ⟨"5", "", 0⟩ }

/-- Witness for C1: the always-invalid job fails with status "error" after
exactly max_attempts oracle calls and max_attempts history entries. -/
theorem C1_all_invalid_job_fails_witness :
    (run_scraping_job invalidRunEnv).1.status = "error" ∧
    (run_scraping_job invalidRunEnv).2.1.length = max_attempts ∧
    (run_scraping_job invalidRunEnv).2.2.length = max_attempts := by
  have h := C1_all_invalid_job_fails invalidRunEnv
    (fun i r h s => ⟨⟨"print(5)", "requests"⟩, rfl⟩)
    (fun i g => ⟨rfl, by show pyStrip "5" ≠ ""; decide,
      by show (validate_scraper_results "5" "link").valid = false; decide⟩)
    (fun i g => by show containsSub (pyLower "") "playwright install" = false; decide)
  exact ⟨h.1, h.2.1, h.2.2.1⟩

/-- The oracle-call trace of the always-invalid job has one call per attempt. -/
theorem invalidRunEnv_trace_length :
    (run_scraping_job invalidRunEnv).2.1.length = max_attempts := by
  exact (attemptLoop_all_invalid invalidRunEnv
    (fun i r h s => ⟨⟨"print(5)", "requests"⟩, rfl⟩)
    (fun i g => ⟨rfl, by show pyStrip "5" ≠ ""; decide,
      by show (validate_scraper_results "5" "link").valid = false; decide⟩)
    max_attempts 0 [] none
    (create_html_structure_map invalidRunEnv.html_content)
    (extract_relevant_html (parseHtml invalidRunEnv.html_content)
      invalidRunEnv.user_prompt)).2.1

/-- Witness for C2: the history passed with oracle call 2 of the concrete
always-invalid job has exactly two entries and is the 2-prefix of the
final history. -/
theorem C2_oracle_history_exact_witness :
    ∃ c, (run_scraping_job invalidRunEnv).2.1.get? 2 = some c ∧
      c.history.length = 2 ∧
      c.history = (run_scraping_job invalidRunEnv).2.2.take 2 := by
  have h2 : 2 < (run_scraping_job invalidRunEnv).2.1.length := by
    rw [invalidRunEnv_trace_length]
    simp [max_attempts]
  obtain ⟨c, hc⟩ : ∃ c, (run_scraping_job invalidRunEnv).2.1.get? 2 = some c :=
    ⟨_, List.get?_eq_get h2⟩
  have h := C2_oracle_history_exact invalidRunEnv 2 c hc
  exact ⟨c, hc, h.1, h.2.1⟩

/-- Witness for C6 (amended): in the concrete always-invalid job, the excerpt
of oracle call 2 is the expansion of the excerpt of oracle call 1. -/
theorem C6_retry_excerpt_is_expansion_witness :
    ∃ c1 c2, (run_scraping_job invalidRunEnv).2.1.get? 1 = some c1 ∧
      (run_scraping_job invalidRunEnv).2.1.get? 2 = some c2 ∧
      c2.relevant_html = _expand_html_context invalidRunEnv.html_content c1.relevant_html := by
  have h1 : 1 < (run_scraping_job invalidRunEnv).2.1.length := by
    rw [invalidRunEnv_trace_length]
    simp [max_attempts]
  have h2 : 2 < (run_scraping_job invalidRunEnv).2.1.length := by
    rw [invalidRunEnv_trace_length]
    simp [max_attempts]
  obtain ⟨c1, hc1⟩ : ∃ c1, (run_scraping_job invalidRunEnv).2.1.get? 1 = some c1 :=
    ⟨_, List.get?_eq_get h1⟩
  obtain ⟨c2, hc2⟩ : ∃ c2, (run_scraping_job invalidRunEnv).2.1.get? 2 = some c2 :=
    ⟨_, List.get?_eq_get h2⟩
  exact ⟨c1, c2, hc1, hc2,
    C6_retry_excerpt_is_expansion invalidRunEnv 1 c1 c2 hc1 hc2⟩

set_option maxRecDepth 200000 in
/-- C6 counterexample: in the concrete always-invalid job, the excerpt used
on attempt 2 (31 characters, the anchor's parent div) is strictly shorter
than the excerpt used on attempt 1 (111 characters, the whole body):
context expansion shrank the excerpt between two attempts after the
first, so excerpt length is not monotonically non-decreasing within the
retry sequence. -/
theorem C6_counterexample :
    ∃ c1 c2, (run_scraping_job invalidRunEnv).2.1.get? 1 = some c1 ∧
      (run_scraping_job invalidRunEnv).2.1.get? 2 = some c2 ∧
      c1.relevant_html = c6e1 ∧ c2.relevant_html = c6e2 ∧
      c2.relevant_html.length < c1.relevant_html.length := by
  have h0 : 0 < (run_scraping_job invalidRunEnv).2.1.length := by
    rw [invalidRunEnv_trace_length]
    simp [max_attempts]
  have h1 : 1 < (run_scraping_job invalidRunEnv).2.1.length := by
    rw [invalidRunEnv_trace_length]
    simp [max_attempts]
  have h2 : 2 < (run_scraping_job invalidRunEnv).2.1.length := by
    rw [invalidRunEnv_trace_length]
    simp [max_attempts]
  obtain ⟨c0, hc0⟩ : ∃ c0, (run_scraping_job invalidRunEnv).2.1.get? 0 = some c0 :=
    ⟨_, List.get?_eq_get h0⟩
  obtain ⟨c1, hc1⟩ : ∃ c1, (run_scraping_job invalidRunEnv).2.1.get? 1 = some c1 :=
    ⟨_, List.get?_eq_get h1⟩
  obtain ⟨c2, hc2⟩ : ∃ c2, (run_scraping_job invalidRunEnv).2.1.get? 2 = some c2 :=
    ⟨_, List.get?_eq_get h2⟩
  have hh0 : (run_scraping_job invalidRunEnv).2.1.head? =
      some ⟨[], loopExcerpt invalidRunEnv 0 []
        (extract_relevant_html (parseHtml invalidRunEnv.html_content)
          invalidRunEnv.user_prompt),
        loopSmap 0 [] (create_html_structure_map invalidRunEnv.html_content)⟩ :=
    attemptLoop_head_call invalidRunEnv 4 0 [] none
      (create_html_structure_map invalidRunEnv.html_content)
      (extract_relevant_html (parseHtml invalidRunEnv.html_content)
        invalidRunEnv.user_prompt)
  have hc0v : c0 = ⟨[], loopExcerpt invalidRunEnv 0 []
      (extract_relevant_html (parseHtml invalidRunEnv.html_content)
        invalidRunEnv.user_prompt),
      loopSmap 0 [] (create_html_structure_map invalidRunEnv.html_content)⟩ := by
    have h := hc0
    rw [List.get?_zero, hh0] at h
    exact (Option.some.inj h).symm
  obtain ⟨_, _, _, _, hlink⟩ := attemptLoop_trace_inv invalidRunEnv max_attempts 0
    [] none (create_html_structure_map invalidRunEnv.html_content)
    (extract_relevant_html (parseHtml invalidRunEnv.html_content)
      invalidRunEnv.user_prompt)
  have h01 : c1.relevant_html =
      _expand_html_context invalidRunEnv.html_content c0.relevant_html :=
    hlink 0 c0 c1 hc0 hc1
  have h12 : c2.relevant_html =
      _expand_html_context invalidRunEnv.html_content c1.relevant_html :=
    hlink 1 c1 c2 hc1 hc2
  have hfield : invalidRunEnv.html_content = c6html := rfl
  have hc0rel : c0.relevant_html = c6e0 := by
    rw [hc0v]
    show loopExcerpt invalidRunEnv 0 []
      (extract_relevant_html (parseHtml invalidRunEnv.html_content)
        invalidRunEnv.user_prompt) = c6e0
    rw [loopExcerpt_zero]
    show extract_relevant_html (parseHtml c6html) "link" = c6e0
    exact c6_extract
  have hc1rel : c1.relevant_html = c6e1 := by
    rw [h01, hfield, hc0rel, c6_exp0]
  have hc2rel : c2.relevant_html = c6e2 := by
    rw [h12, hfield, hc1rel, c6_exp1]
  refine ⟨c1, c2, hc1, hc2, hc1rel, hc2rel, ?_⟩
  rw [hc1rel, hc2rel]
  decide

/-- A job whose first execution result has exit code 0 and valid output but
also carries the playwright marker in stderr: the marker is ignored. -/
def markerSuccessEnv : JobEnv :=
  { user_prompt := "get stuff"
    run_id := "r2"
    html_content := "<html><body><p>hi</p></body></html>"
    gen := fun _ _ _ _ => Except.ok ⟨"code", "playwright"⟩
    exec := fun _ _ => ⟨"[\x7b\x22a\x22: 1\x7d]", "please run playwright install first", 0⟩ }

/-- C3 counterexample: an attempt whose execution stderr contains the marker
"playwright install" but whose exit code is 0 with valid non-blank stdout
does not terminate ActionRequired: the job succeeds (the marker test is an
elif behind the exit-code-0 branch), refuting the claim for every attempt
with marker-bearing stderr. -/
theorem C3_counterexample :
    containsSub (pyLower "please run playwright install first") "playwright install" = true ∧
    (run_scraping_job markerSuccessEnv).1.status = "success" ∧
    (run_scraping_job markerSuccessEnv).1.status ≠ "action_required" := by
  have h := attemptLoop_succ_of_valid markerSuccessEnv 4 0 [] none
    (create_html_structure_map markerSuccessEnv.html_content)
    (extract_relevant_html (parseHtml markerSuccessEnv.html_content)
      markerSuccessEnv.user_prompt)
    ⟨"code", "playwright"⟩ rfl (by decide) (by decide)
  have h2 : (run_scraping_job markerSuccessEnv).1 =
      successResult markerSuccessEnv
        (markerSuccessEnv.exec 0 ⟨"code", "playwright"⟩).stdout :=
    congrArg Prod.fst h
  refine ⟨by decide, ?_, ?_⟩
  · rw [h2]; rfl
  · rw [h2]; decide

/-- A job whose execution fails (exit code 1, blank stdout) with the marker
in stderr: the genuine ActionRequired case. -/
def actionEnv : JobEnv :=
  { user_prompt := "get stuff"
    run_id := "r3"
    html_content := "<html><body><p>hi</p></body></html>"
    gen := fun _ _ _ _ => Except.ok ⟨"code", "playwright"⟩
    exec := fun _ _ => ⟨"", "You need to run: playwright install", 1⟩ }

/-- Witness for C3 (amended): a failing execution with the marker terminates
the loop ActionRequired at once with a single oracle call. -/
theorem C3_marker_action_required_witness :
    attemptLoop actionEnv (4 + 1) 0 [] none "sm" "rel" =
      (actionRequiredResult actionEnv, [⟨[], "rel", some "sm"⟩], []) ∧
    (actionRequiredResult actionEnv).status = "action_required" := by
  have h := C3_marker_action_required actionEnv 4 0 [] none "sm" "rel"
    ⟨"code", "playwright"⟩ rfl (by decide) (by decide)
  exact ⟨h.1, h.2.1⟩

/-! ## Bounds of the relevance reducer (C4) -/

/-- Length of a Python slice. -/
theorem pySlice_length (s : String) (n : Nat) :
    (pySlice s n).length = min n s.length := by
  show (s.data.take n).length = min n s.data.length
  exact List.length_take n s.data

/-- A string of positive length is not empty. -/
theorem ne_empty_of_length_pos {s : String} (h : 0 < s.length) : s ≠ "" := by
  intro he
  rw [he] at h
  exact Nat.lt_irrefl 0 h

/-- Joining two or more parts includes at least one separator. -/
theorem joinSep_length_ge_sep (sep : String) :
    ∀ l : List String, 2 ≤ l.length → sep.length ≤ (joinSep sep l).length := by
  intro l hl
  match l with
  | [] => simp at hl
  | [a] => simp at hl
  | a :: b :: t =>
    show sep.length ≤ (a ++ sep ++ joinSep sep (b :: t)).length
    simp only [String.length_append]
    omega

/-- The last part is no longer than the joined whole. -/
theorem joinSep_last_le (sep s : String) :
    ∀ l : List String, s.length ≤ (joinSep sep (l ++ [s])).length := by
  intro l
  induction l with
  | nil => simp [joinSep]
  | cons a t ih =>
    rcases ht : t ++ [s] with _ | ⟨h2, t2⟩
    · exact absurd ht (by simp)
    · show s.length ≤ (joinSep sep (a :: (t ++ [s]))).length
      rw [ht]
      show s.length ≤ (a ++ sep ++ joinSep sep (h2 :: t2)).length
      rw [← ht]
      simp only [String.length_append]
      omega

/-- The clipped output never exceeds 75,000 plus the 22-character marker. -/
theorem finalClip_length_le (c : String) : (finalClip c).length ≤ 75000 + 22 := by
  unfold finalClip
  by_cases h : 75000 < c.length
  · rw [if_pos h]
    rw [String.length_append, pySlice_length]
    have hmin : min 75000 c.length = 75000 := Nat.min_eq_left (by omega)
    have hm : ("\n\n... (HTML truncated)" : String).length = 22 := rfl
    omega
  · rw [if_neg h]
    omega

/-- When the clipped output exceeds 75,000 characters it ends in the
truncation marker after exactly 75,000 kept characters. -/
theorem finalClip_marker (c : String) (h : 75000 < (finalClip c).length) :
    ∃ s, finalClip c = s ++ "\n\n... (HTML truncated)" ∧ s.length = 75000 := by
  by_cases hc : 75000 < c.length
  · refine ⟨pySlice c 75000, ?_, ?_⟩
    · unfold finalClip
      rw [if_pos hc]
    · rw [pySlice_length]
      exact Nat.min_eq_left (by omega)
  · exfalso
    unfold finalClip at h
    rw [if_neg hc] at h
    omega

/-- Clipping a non-empty string yields a non-empty string. -/
theorem finalClip_ne_empty (c : String) (h : c ≠ "") : finalClip c ≠ "" := by
  unfold finalClip
  by_cases hc : 75000 < c.length
  · rw [if_pos hc]
    apply ne_empty_of_length_pos
    rw [String.length_append]
    have hm : ("\n\n... (HTML truncated)" : String).length = 22 := rfl
    omega
  · rw [if_neg hc]
    exact h

/-- A found tag location carries an element with that tag name. -/
theorem findTagLoc_tagName {root : Node} {tag : String} {b : Loc}
    (h : findTagLoc root tag = some b) : b.node.tagName = tag := by
  unfold findTagLoc at h
  rcases hl : (descendantLocs root).filter (fun l => l.node.tagName == tag)
    with _ | ⟨x, t⟩
  · rw [hl] at h
    exact Option.noConfusion h
  · rw [hl] at h
    cases Option.some.inj h
    have hmem : b ∈ (descendantLocs root).filter (fun l => l.node.tagName == tag) := by
      rw [hl]
      exact List.mem_cons_self b t
    exact eq_of_beq (List.mem_filter.mp hmem).2

/-- The serialisation of a non-root element is non-empty. -/
theorem render_length_pos (t : String) (a : List (String × String)) (cs : List Node)
    (hne : t ≠ "[document]") : 0 < (render (.element t a cs)).length := by
  rw [render, if_neg hne]
  have h1 : ("<" : String).length = 1 := rfl
  by_cases hv : (t ∈ voidTags && cs.isEmpty) = true
  · rw [if_pos hv]
    simp only [String.length_append]
    omega
  · rw [if_neg hv]
    simp only [String.length_append]
    omega

/-- Does a document contain at least one element? -/
def containsElement (root : Node) : Bool :=
  !(descendantLocs root).isEmpty

/-- C4 (amended): for every document tree and objective the reducer's output
length never exceeds 75,022 characters — the hard 75,000-character
truncation plus the appended 22-character marker "(newline)(newline)...
(HTML truncated)", which is appended after the cut, so the 75,000 bound as
originally claimed is exceeded by exactly the marker whenever the combined
content is cut (see the counterexample); whenever the output exceeds
75,000 characters it consists of exactly 75,000 kept characters plus the
marker; and the output is non-empty whenever the noise-stripped document
still contains a body element (a document with elements but no body can
produce empty output, see the counterexample). -/
theorem C4_reducer_bounds (soup : Node) (user_prompt : String) :
    (extract_relevant_html soup user_prompt).length ≤ 75000 + 22 ∧
    (75000 < (extract_relevant_html soup user_prompt).length →
      ∃ s, extract_relevant_html soup user_prompt = s ++ "\n\n... (HTML truncated)" ∧
        s.length = 75000) ∧
    (∀ b, findTagLoc (decomposeNoise soup) "body" = some b →
      extract_relevant_html soup user_prompt ≠ "") := by
  have hrew : extract_relevant_html soup user_prompt =
      finalClip (joinSep "\n\n" (reducerParts (fun l => l) soup user_prompt)) := rfl
  rw [hrew]
  refine ⟨finalClip_length_le _, finalClip_marker _, ?_⟩
  intro b hb
  apply finalClip_ne_empty
  apply ne_empty_of_length_pos
  unfold reducerParts
  by_cases hle : (reducerBaseParts (fun l => l) soup user_prompt).length ≤ 2
  · rw [if_pos hle, hb]
    show 0 < (joinSep "\n\n" (reducerBaseParts (fun l => l) soup user_prompt ++
      [pySlice (render b.node) 15000])).length
    have hbody : 0 < (render b.node).length := by
      have htag := findTagLoc_tagName hb
      rcases hn : b.node with ⟨t, a, cs⟩ | s
      · have h2 := htag
        rw [hn] at h2
        refine render_length_pos t a cs ?_
        rw [show t = "body" from h2]
        decide
      · have h2 := htag
        rw [hn] at h2
        exact absurd (show ("" : String) = "body" from h2) (by decide)
    have hslice : 0 < (pySlice (render b.node) 15000).length := by
      rw [pySlice_length]
      omega
    have := joinSep_last_le "\n\n" (pySlice (render b.node) 15000)
      (reducerBaseParts (fun l => l) soup user_prompt)
    omega
  · rw [if_neg hle]
    have h2 : 2 ≤ (reducerBaseParts (fun l => l) soup user_prompt).length := by omega
    have := joinSep_length_ge_sep "\n\n" _ h2
    have hsep : ("\n\n" : String).length = 2 := rfl
    omega

/-- Witness for C4 (amended): on a small concrete document with a body the
output is the body fallback, non-empty and within the bound. -/
theorem C4_reducer_bounds_witness :
    (extract_relevant_html (parseHtml "<html><body><p>hi</p></body></html>") "q").length
      ≤ 75000 + 22 ∧
    extract_relevant_html (parseHtml "<html><body><p>hi</p></body></html>") "q" ≠ "" := by
  have h := C4_reducer_bounds (parseHtml "<html><body><p>hi</p></body></html>") "q"
  refine ⟨h.1, h.2.2
    { node := Node.element "body" [] [Node.element "p" [] [Node.text "hi"]]
      ancestors :=
        [Node.element "html" [] [Node.element "body" [] [Node.element "p" [] [Node.text "hi"]]],
         Node.element "[document]" []
           [Node.element "html" []
             [Node.element "body" [] [Node.element "p" [] [Node.text "hi"]]]]] } ?_⟩
  rfl

/-- A 76,000-character text run used to overflow the reducer's clip. -/
def bigText : String := String.mk (List.replicate 76000 'a')

/-- A main element holding the long text. -/
def mainN : Node := .element "main" [] [.text bigText]

/-- The body wrapping the main element. -/
def bodyN : Node := .element "body" [] [mainN]

/-- The html element wrapping the body. -/
def htmlN : Node := .element "html" [] [bodyN]

/-- A document whose main content area is far larger than the clip bound. -/
def bigDoc : Node := .element "[document]" [] [htmlN]

/-- Length of the long text run. -/
theorem bigText_length : bigText.length = 76000 := by
  show (List.replicate 76000 'a').length = 76000
  rw [List.length_replicate]

/-- Serialised length of the main element. -/
theorem render_mainN_length : (render mainN).length = 76013 := by
  show ("<" ++ "main" ++ attrsString [] ++ ">" ++ renderList [Node.text bigText]
    ++ "</" ++ "main" ++ ">").length = 76013
  show ("<" ++ "main" ++ attrsString [] ++ ">" ++ (bigText ++ renderList [])
    ++ "</" ++ "main" ++ ">").length = 76013
  simp only [String.length_append, attrsString, renderList, bigText_length]
  have h1 : ("<" : String).length = 1 := rfl
  have h2 : ("</" : String).length = 2 := rfl
  have h3 : ("main" : String).length = 4 := rfl
  have h4 : (">" : String).length = 1 := rfl
  have h5 : ("" : String).length = 0 := rfl
  omega

/-- Serialised length of the body element. -/
theorem render_bodyN_length : (render bodyN).length = 76026 := by
  show ("<" ++ "body" ++ attrsString [] ++ ">" ++ (render mainN ++ renderList [])
    ++ "</" ++ "body" ++ ">").length = 76026
  simp only [String.length_append, attrsString, renderList, render_mainN_length]
  have h1 : ("<" : String).length = 1 := rfl
  have h2 : ("</" : String).length = 2 := rfl
  have h3 : ("body" : String).length = 4 := rfl
  have h4 : (">" : String).length = 1 := rfl
  have h5 : ("" : String).length = 0 := rfl
  omega

/-- On bigDoc with a keyword-free objective, the reducer's parts are the main
content area followed by the start-of-body fallback. -/
theorem bigDoc_parts : reducerParts (fun l => l) bigDoc "zzz" =
    [render mainN, pySlice (render bodyN) 15000] := by
  simp [reducerParts, reducerBaseParts, pyLower, decomposeNoise, stripNodesList,
    stripNodes, noiseTags, firstSelMatch, mainSelectors, selectOne, rootLoc, parseSel,
    splitAtSub, elementLocsList, elementLocs, matchesSel, Node.tagName, Node.attrList,
    Node.childList, lookupAttr, listStartsWith, pySplitWs, splitWsAux, activeSelectorsFor,
    structuralKeywords, setUpdate, dedupLocs, dedupLocsAux, contextualOf, dedupNodes,
    dedupNodesAux, headParts, findTagLoc, descendantLocs, findTagIn, nodeString, bigDoc,
    htmlN, bodyN, mainN, selectLimit, isPyWs]

/-- C4 counterexample: the claim fails in both directions.  The body-less
document div(x) contains an element yet the reducer returns the empty
string (no main area, no keyword matches, no title, and no body for the
fallback).  And on bigDoc the output length is exactly 75,022 characters,
exceeding the claimed 75,000 maximum, because the truncation marker is
appended after the hard cut to 75,000. -/
theorem C4_counterexample :
    containsElement (parseHtml "<div>x</div>") = true ∧
    extract_relevant_html (parseHtml "<div>x</div>") "x" = "" ∧
    75000 < (extract_relevant_html bigDoc "zzz").length ∧
    (extract_relevant_html bigDoc "zzz").length = 75022 := by
  have hC : (joinSep "\n\n" (reducerParts (fun l => l) bigDoc "zzz")).length = 91015 := by
    rw [bigDoc_parts]
    show (render mainN ++ "\n\n" ++ pySlice (render bodyN) 15000).length = 91015
    rw [String.length_append, String.length_append, pySlice_length,
      render_mainN_length, render_bodyN_length]
    have h1 : ("\n\n" : String).length = 2 := rfl
    rw [h1]
    norm_num
  have hext : extract_relevant_html bigDoc "zzz" =
      finalClip (joinSep "\n\n" (reducerParts (fun l => l) bigDoc "zzz")) := rfl
  have hlen : (extract_relevant_html bigDoc "zzz").length = 75022 := by
    rw [hext, finalClip, if_pos (by rw [hC]; norm_num), String.length_append,
      pySlice_length, hC]
    have hm : ("\n\n... (HTML truncated)" : String).length = 22 := rfl
    rw [hm]
    norm_num
  exact ⟨by decide, by decide, by rw [hlen]; norm_num, hlen⟩

/-- C9 (amended): the reducer is a pure function of the document, the
objective, and the iteration order of the Python set active_selectors.
Within one process (one fixed iteration order) repeated runs are
byte-identical, and whenever the objective activates at most one selector
the output does not depend on the iteration order at all; with two or
more activated selectors the byte order of the output can depend on the
set's process-specific iteration order (string hash randomisation), see
the counterexample. -/
theorem C9_reducer_deterministic_given_order (ord : List String → List String)
    (hperm : ∀ l : List String, (ord l).Perm l)
    (soup : Node) (user_prompt : String)
    (hone : (activeSelectorsFor (pySplitWs (pyLower user_prompt))).length ≤ 1) :
    extractWithOrder ord soup user_prompt = extract_relevant_html soup user_prompt := by
  have heq : ord (activeSelectorsFor (pySplitWs (pyLower user_prompt))) =
      activeSelectorsFor (pySplitWs (pyLower user_prompt)) := by
    have hp := hperm (activeSelectorsFor (pySplitWs (pyLower user_prompt)))
    rcases hl : activeSelectorsFor (pySplitWs (pyLower user_prompt)) with _ | ⟨x, t⟩
    · rw [hl] at hp
      exact List.perm_nil.mp hp
    · rcases t with _ | ⟨y, t2⟩
      · rw [hl] at hp
        exact List.perm_singleton.mp hp
      · rw [hl] at hone
        simp at hone
  have hbase : reducerBaseParts ord soup user_prompt =
      reducerBaseParts (fun l => l) soup user_prompt := by
    simp only [reducerBaseParts]
    rw [heq]
  show finalClip (joinSep "\n\n" (reducerParts ord soup user_prompt)) =
    finalClip (joinSep "\n\n" (reducerParts (fun l => l) soup user_prompt))
  simp only [reducerParts]
  rw [hbase]

/-- A document with one ul-match and one a-match in separate blocks; with the
objective "link list" both the list selectors and the link selector are
active, and the iteration order of the selector set decides which
contextual block is emitted first. -/
def c9html : String :=
  "<div id=\x22u1\x22><div><ul><li>x</li></ul></div></div><div id=\x22a1\x22><div><a>y</a></div></div>"

/-- C9 counterexample: reversing the iteration order of the activated
selector set {ul, ol, a} — a legitimate iteration order of the Python set,
whose order varies across processes with string hash randomisation —
changes the output bytes of the reducer on a concrete document, so two
runs of the code are not guaranteed byte-identical. -/
theorem C9_counterexample :
    (List.reverse (activeSelectorsFor (pySplitWs (pyLower "link list")))).Perm
      (activeSelectorsFor (pySplitWs (pyLower "link list"))) ∧
    extractWithOrder List.reverse (parseHtml c9html) "link list" ≠
      extractWithOrder (fun l => l) (parseHtml c9html) "link list" ∧
    extractWithOrder (fun l => l) (parseHtml c9html) "link list" =
      extract_relevant_html (parseHtml c9html) "link list" := by
  refine ⟨by decide, by decide, rfl⟩

/-- Witness for C9 (amended): with the single-keyword objective "link" the
reversed iteration order yields the same bytes as the insertion order. -/
theorem C9_reducer_deterministic_given_order_witness :
    (activeSelectorsFor (pySplitWs (pyLower "link"))).length ≤ 1 ∧
    extractWithOrder List.reverse (parseHtml c9html) "link" =
      extract_relevant_html (parseHtml c9html) "link" :=
  ⟨by decide,
   C9_reducer_deterministic_given_order List.reverse (fun l => List.reverse_perm l)
     (parseHtml c9html) "link" (by decide)⟩

end ChunScraper

